import Mathlib

/-!
Shallow embedding of the go-lifx wire-format codec (packages `lifxutil`,
`lifxprotocol`, `lifxpayloads`) and proofs about it.

Modelling conventions:
* Go byte slices and streams are `List Nat`, each entry standing for one byte
  (values are reduced `% 256` whenever the code reads or writes a byte).
* Machine integers are `Nat` with explicit `% 2^w` where Go truncates.
* `binary.Write`/`binary.Read` with a `binary.ByteOrder` become `putUint` /
  `readUint` over an explicit `ByteOrder`.
* An `io.Reader` is the remaining `List Nat`; a short read is the error
  `GoErr.shortRead` (Go surfaces `io.EOF`/`io.ErrUnexpectedEOF`).
* Fallible Go functions return `Except GoErr α`; each distinct package error
  value is one constructor of `GoErr`.
* `float32` (`Signal`) and `int16` (`Reserved`) payload fields are carried as
  their raw wire bit patterns (a `Nat` below `2^32` resp. `2^16`), and
  `time.Duration` as `Int` nanoseconds, matching `encoding/binary` behaviour.
-/

/-- Byte order passed to every codec; mirrors `binary.LittleEndian` /
`binary.BigEndian`. -/
inductive ByteOrder where
  | LE : ByteOrder
  | BE : ByteOrder
deriving DecidableEq, Repr

/-- One constructor per distinct error value produced by the Go code. -/
inductive GoErr where
  /-- `ErrFrameOriginOverflow` -/
  | originOverflow
  /-- `ErrFrameProtocolOverflow` -/
  | protocolOverflow
  /-- `ErrFrameAddressReservedOverflow` -/
  | reservedOverflow
  /-- `ErrFrameAddressTargetMalformed` (defined in `frame_address.go` but, as
  proved below, never returned by the code) -/
  | targetMalformed
  /-- `errors.New("none of the fields in the struct can be nil")` in
  `Header.MarshalPacket` -/
  | headerFieldNil
  /-- `errors.New("the Header field cannot be nil")` in `Packet.MarshalPacket` -/
  | packetHeaderNil
  /-- `errors.New("the Payload field cannot be nil")` in `Packet.MarshalPacket` -/
  | packetPayloadNil
  /-- the `fmt.Errorf("size of packet ... would overflow ...")` error -/
  | sizeOverflow
  /-- `errors.New("the ProtocolHeader cannot be nil")` in `unmarshalPayload` -/
  | protocolHeaderNil
  /-- `errors.New("unknown message type")` in `unmarshalPayload` -/
  | unknownType
  /-- `ErrLightColorNotSet` -/
  | lightColorNotSet
  /-- `errors.New("LightSetColor.Duration would overflow uint32")` -/
  | setColorDurationOverflow
  /-- `errors.New("LightSetPower.Duration would overflow uint32")` -/
  | setPowerDurationOverflow
  /-- short read from the `io.Reader` (`io.EOF` / `io.ErrUnexpectedEOF`) -/
  | shortRead
deriving DecidableEq, Repr

/-- Little-endian byte decomposition: `w` bytes of `v`, least significant
first. -/
def leBytes : Nat → Nat → List Nat
  | 0, _ => []
  | w + 1, v => v % 256 :: leBytes w (v / 256)

/-- Value of a byte list read little-endian (each entry reduced to a byte). -/
def leVal : List Nat → Nat
  | [] => 0
  | b :: bs => b % 256 + 256 * leVal bs

/-- `binary.Write(buf, order, v)` for a `w`-byte unsigned integer: the bytes
appended to the buffer. -/
def putUint (order : ByteOrder) (w v : Nat) : List Nat :=
  match order with
  | .LE => leBytes w v
  | .BE => (leBytes w v).reverse

/-- Fixed-size Go byte array (`[n]byte`) written element-wise with
`binary.Write`: always exactly `n` bytes (out-of-range entries of the model
list default to `0`, as a Go array has no missing entries). -/
def putArr (order : ByteOrder) (n : Nat) (arr : List Nat) : List Nat :=
  ((List.range n).map (fun i => putUint order 1 (arr.getD i 0))).flatten

/-- `binary.Read(data, order, &v)` for a `w`-byte unsigned integer: the value
and the remaining stream, or a short-read error. -/
def readUint (order : ByteOrder) (w : Nat) (data : List Nat) :
    Except GoErr (Nat × List Nat) :=
  if data.length < w then .error .shortRead
  else
    let bytes := data.take w
    let v := match order with
      | .LE => leVal bytes
      | .BE => leVal bytes.reverse
    .ok (v, data.drop w)

/-- `n` consecutive one-byte `binary.Read`s (a Go loop over a `[n]byte`
array): the bytes and the remaining stream. -/
def readNBytes (n : Nat) (data : List Nat) :
    Except GoErr (List Nat × List Nat) :=
  if data.length < n then .error .shortRead
  else .ok ((data.take n).map (fun b => b % 256), data.drop n)

/-- Go's builtin `copy(dst, src)`: the contents of `dst` after copying
`min (len src) (len dst)` elements of `src` onto its front. -/
def goCopy (dst src : List Nat) : List Nat :=
  src.take dst.length ++ dst.drop (min src.length dst.length)

/-- Go's `copy(l[a:b], src)`: the contents of `l` after copying `src` into the
sub-slice from index `a` (inclusive) to `b` (exclusive). -/
def setSeg (l : List Nat) (a b : Nat) (src : List Nat) : List Nat :=
  l.take a ++ goCopy ((l.drop a).take (b - a)) src ++ l.drop b

/-! Basic facts about the byte-level helpers. -/

theorem leBytes_length (w v : Nat) : (leBytes w v).length = w := by
  induction w generalizing v with
  | zero => rfl
  | succ w ih => simp [leBytes, ih]

theorem leVal_leBytes (w v : Nat) : leVal (leBytes w v) = v % 256 ^ w := by
  induction w generalizing v with
  | zero => simp [leBytes, leVal, Nat.mod_one]
  | succ w ih =>
    simp only [leBytes, leVal, ih]
    rw [pow_succ', Nat.mod_mul]
    generalize v / 256 % 256 ^ w = X
    omega

theorem putUint_length (order : ByteOrder) (w v : Nat) :
    (putUint order w v).length = w := by
  cases order <;> simp [putUint, leBytes_length]

theorem readUint_putUint (order : ByteOrder) (w v : Nat) (rest : List Nat) :
    readUint order w (putUint order w v ++ rest) = .ok (v % 256 ^ w, rest) := by
  cases order with
  | LE =>
    have hlen : (leBytes w v).length = w := leBytes_length w v
    have h1 : ¬ (leBytes w v ++ rest).length < w := by
      simp only [List.length_append, hlen]; omega
    simp [readUint, putUint, h1, List.take_left' hlen, List.drop_left' hlen,
      leVal_leBytes, leBytes_length]
  | BE =>
    have hlen : ((leBytes w v).reverse).length = w := by
      simp [leBytes_length]
    have h1 : ¬ ((leBytes w v).reverse ++ rest).length < w := by
      simp only [List.length_append, hlen]; omega
    simp [readUint, putUint, h1, List.take_left' hlen, List.drop_left' hlen,
      leVal_leBytes, leBytes_length]

theorem map_mod256_eq_self (bs : List Nat) (hb : ∀ b ∈ bs, b < 256) :
    bs.map (fun b => b % 256) = bs := by
  induction bs with
  | nil => rfl
  | cons x xs ih =>
    simp only [List.map_cons, List.cons.injEq]
    constructor
    · exact Nat.mod_eq_of_lt (hb x (by simp))
    · exact ih (fun b h => hb b (by simp [h]))

theorem readNBytes_append (n : Nat) (bs rest : List Nat) (hlen : bs.length = n)
    (hb : ∀ b ∈ bs, b < 256) : readNBytes n (bs ++ rest) = .ok (bs, rest) := by
  have h1 : ¬ (bs ++ rest).length < n := by
    simp only [List.length_append, hlen]; omega
  unfold readNBytes
  rw [if_neg h1, List.take_left' hlen, List.drop_left' hlen,
    map_mod256_eq_self bs hb]

theorem putUint_one (order : ByteOrder) (v : Nat) :
    putUint order 1 v = [v % 256] := by
  cases order <;> simp [putUint, leBytes]

theorem flatten_map_singleton (l : List Nat) (f : Nat → Nat) :
    (l.map (fun x => [f x])).flatten = l.map f := by
  induction l with
  | nil => rfl
  | cons x xs ih => simp [ih]

theorem putArr_eq_map (order : ByteOrder) (n : Nat) (arr : List Nat) :
    putArr order n arr = (List.range n).map (fun i => arr.getD i 0 % 256) := by
  simp only [putArr, putUint_one]
  exact flatten_map_singleton _ _

theorem putArr_length (order : ByteOrder) (n : Nat) (arr : List Nat) :
    (putArr order n arr).length = n := by
  simp [putArr_eq_map]

theorem putArr_eq_self (order : ByteOrder) (n : Nat) (arr : List Nat)
    (hlen : arr.length = n) (hb : ∀ b ∈ arr, b < 256) :
    putArr order n arr = arr := by
  rw [putArr_eq_map]
  apply List.ext_getElem (by simp [hlen])
  intro i h1 h2
  have hgd : arr.getD i 0 = arr[i] := by
    simp [List.getD_eq_getElem?_getD, List.getElem?_eq_getElem h2]
  simp only [List.getElem_map, List.getElem_range]
  rw [hgd]
  exact Nat.mod_eq_of_lt (hb arr[i] (List.getElem_mem h2))

/-- Disjoint bitwise-or is addition: if `a` has no bits below position `k` and
`b` has no bits at or above position `k`, then `a ||| b = a + b`. -/
theorem lor_eq_add (a b k : Nat) (ha : a % 2 ^ k = 0) (hb : b < 2 ^ k) :
    a ||| b = a + b := by
  obtain ⟨q, rfl⟩ := Nat.dvd_of_mod_eq_zero ha
  apply Nat.eq_of_testBit_eq
  intro j
  rw [Nat.testBit_or, Nat.testBit_mul_pow_two, Nat.testBit_mul_pow_two_add _ hb]
  rcases Nat.lt_or_ge j k with h | h
  · simp [h, Nat.not_le.mpr h]
  · have hbj : b.testBit j = false :=
      Nat.testBit_lt_two_pow
        (lt_of_lt_of_le hb (Nat.pow_le_pow_right (by norm_num) h))
    simp [h, hbj, Nat.not_lt.mpr h]

theorem replicate_drop (n m : Nat) (a : Nat) :
    (List.replicate n a).drop m = List.replicate (n - m) a := by
  induction m generalizing n with
  | zero => simp
  | succ m ih =>
    cases n with
    | zero => simp
    | succ n => simp [List.replicate_succ, ih n, Nat.succ_sub_succ]

theorem replicate_take (n m : Nat) (a : Nat) :
    (List.replicate n a).take m = List.replicate (min m n) a := by
  induction m generalizing n with
  | zero => simp
  | succ m ih =>
    cases n with
    | zero => simp
    | succ n => simp [List.replicate_succ, ih, Nat.succ_min_succ]

theorem goCopy_exact (dst src : List Nat) (h : src.length = dst.length) :
    goCopy dst src = src := by
  simp [goCopy, ← h, List.take_length, List.drop_length]

theorem goCopy_of_le (dst src : List Nat) (h : src.length ≤ dst.length) :
    goCopy dst src = src ++ dst.drop src.length := by
  simp [goCopy, List.take_of_length_le h, Nat.min_eq_left h]

/-! Package `lifxutil` (`util/util.go`). -/

/-- `HardwareAddrToUint64` from `util/util.go`: converts a 6-byte hardware
address into the `uint64` wire representation, shifting byte `i` left by
`55 - 8*i` bits (as written in the source). -/
def HardwareAddrToUint64 (target : List Nat) : Nat :=
  (target.getD 0 0) <<< 55 |||
  (target.getD 1 0) <<< 47 |||
  (target.getD 2 0) <<< 39 |||
  (target.getD 3 0) <<< 31 |||
  (target.getD 4 0) <<< 23 |||
  (target.getD 5 0) <<< 15

/-- `Uint64ToHardwareAddr` from `util/util.go`: the inverse extraction,
`byte(u64 >> (55 - 8*i))` for each of the 6 address bytes. -/
def Uint64ToHardwareAddr (u64 : Nat) : List Nat :=
  [(u64 >>> 55) % 256, (u64 >>> 47) % 256, (u64 >>> 39) % 256,
   (u64 >>> 31) % 256, (u64 >>> 23) % 256, (u64 >>> 15) % 256]

/-! Package `lifxprotocol`: constants. -/

/-- `MaxFrameOrigin = ^uint8(0) >> 6 = 3`. -/
def MaxFrameOrigin : Nat := 3

/-- `MaxFrameProtocol = ^uint16(0) >> 4 = 4095`. -/
def MaxFrameProtocol : Nat := 4095

/-- `FrameByteSize = 8`. -/
def FrameByteSize : Nat := 8

/-- `MaxFrameAddressReserved = ^uint8(0) >> 2 = 63`. -/
def MaxFrameAddressReserved : Nat := 63

/-- `FrameAddressByteSize = 16`. -/
def FrameAddressByteSize : Nat := 16

/-- `ProtocolHeaderByteSize = 12`. -/
def ProtocolHeaderByteSize : Nat := 12

/-- `HeaderByteSize = FrameByteSize + FrameAddressByteSize +
ProtocolHeaderByteSize = 36`. -/
def HeaderByteSize : Nat := FrameByteSize + FrameAddressByteSize + ProtocolHeaderByteSize

/-- `maxUint16 = int(^uint16(0)) = 65535` from `protocol.go`. -/
def maxUint16 : Nat := 65535

/-! The `Frame` codec (`protocol/frame.go`). -/

/-- `Frame` struct: first 8-byte header block. -/
structure Frame where
  size : Nat
  origin : Nat
  tagged : Bool
  addressable : Bool
  protocol : Nat
  source : Nat
deriving DecidableEq, Repr

/-- `Frame.MarshalPacket`: validates `Origin` and `Protocol`, writes `Size`
(u16), the packed u16 `uint16(Origin)<<14 | Protocol<<4>>4` with bit 13 set
for `Tagged` and bit 12 for `Addressable`, then `Source` (u32). -/
def Frame.MarshalPacket (order : ByteOrder) (frame : Frame) :
    Except GoErr (List Nat) :=
  if frame.origin > MaxFrameOrigin then .error .originOverflow
  else if frame.protocol > MaxFrameProtocol then .error .protocolOverflow
  else
    let mid0 := ((frame.origin % 256) <<< 14) % 65536 |||
      ((frame.protocol <<< 4) % 65536) >>> 4
    let mid1 := if frame.tagged then mid0 ||| (1 <<< 13) else mid0
    let mid2 := if frame.addressable then mid1 ||| (1 <<< 12) else mid1
    .ok (putUint order 2 frame.size ++ putUint order 2 mid2 ++
      putUint order 4 frame.source)

/-- `Frame.UnmarshalPacket`: reads `Size`, the packed u16 (unpacking `Origin`
from the top 2 bits, `Tagged` from bit 13, `Addressable` from bit 12,
`Protocol` from the low 12 bits), then `Source`. -/
def Frame.UnmarshalPacket (data : List Nat) (order : ByteOrder) :
    Except GoErr (Frame × List Nat) :=
  match readUint order 2 data with
  | .error e => .error e
  | .ok (size, d1) =>
    match readUint order 2 d1 with
    | .error e => .error e
    | .ok (u16, d2) =>
      match readUint order 4 d2 with
      | .error e => .error e
      | .ok (source, d3) =>
        .ok ({ size := size
               origin := (u16 >>> 14) % 256
               tagged := u16 >>> 13 &&& 1 == 1
               addressable := u16 >>> 12 &&& 1 == 1
               protocol := ((u16 <<< 4) % 65536) >>> 4
               source := source }, d3)

/-! The `FrameAddress` codec (`protocol/frame_address.go`). -/

/-- `FrameAddress` struct: second 16-byte header block. `Target` models the
`net.HardwareAddr` byte slice (arbitrary length) and `ReservedBlock` the
`[6]uint8` array. -/
structure FrameAddress where
  target : List Nat
  reservedBlock : List Nat
  reserved : Nat
  ackRequired : Bool
  resRequired : Bool
  sequence : Nat
deriving DecidableEq, Repr

/-- `targetSliceToUint` from `frame_address.go` (identical to
`lifxutil.HardwareAddrToUint64`). -/
def targetSliceToUint (target : List Nat) : Nat :=
  (target.getD 0 0) <<< 55 |||
  (target.getD 1 0) <<< 47 |||
  (target.getD 2 0) <<< 39 |||
  (target.getD 3 0) <<< 31 |||
  (target.getD 4 0) <<< 23 |||
  (target.getD 5 0) <<< 15

/-- `uintToTargetSlice` from `frame_address.go` (identical to
`lifxutil.Uint64ToHardwareAddr`). -/
def uintToTargetSlice (u64 : Nat) : List Nat :=
  [(u64 >>> 55) % 256, (u64 >>> 47) % 256, (u64 >>> 39) % 256,
   (u64 >>> 31) % 256, (u64 >>> 23) % 256, (u64 >>> 15) % 256]

/-- `FrameAddress.MarshalPacket`: validates `Reserved`; encodes `Target` via
`targetSliceToUint` only when it is exactly 6 bytes, or 8 bytes with the last
two zero — NOTE the source's `else` branch at `frame_address.go:85-87` is
empty, so any other target is silently encoded as the zero `uint64` and no
error is returned; writes the 6 `ReservedBlock` bytes, the packed byte
`Reserved<<2 | ack<<1 | res`, and `Sequence`. -/
def FrameAddress.MarshalPacket (order : ByteOrder) (fra : FrameAddress) :
    Except GoErr (List Nat) :=
  if fra.reserved > MaxFrameAddressReserved then .error .reservedOverflow
  else
    let ack : Nat := if fra.ackRequired then 1 else 0
    let res : Nat := if fra.resRequired then 1 else 0
    let u64 : Nat :=
      if fra.target.length = 6 ∨
          (fra.target.length = 8 ∧ fra.target.getD 6 0 = 0 ∧
            fra.target.getD 7 0 = 0) then
        targetSliceToUint fra.target
      else 0
    let u8 := fra.reserved <<< 2 ||| ack <<< 1 ||| res
    .ok (putUint order 8 u64 ++ putArr order 6 fra.reservedBlock ++
      putUint order 1 u8 ++ putUint order 1 fra.sequence)

/-- `FrameAddress.UnmarshalPacket`: reads the target u64 and decodes it with
`uintToTargetSlice`, reads the 6 reserved bytes, unpacks the
reserved/ack/res byte, and reads `Sequence`. -/
def FrameAddress.UnmarshalPacket (data : List Nat) (order : ByteOrder) :
    Except GoErr (FrameAddress × List Nat) :=
  match readUint order 8 data with
  | .error e => .error e
  | .ok (u64, d1) =>
    match readNBytes 6 d1 with
    | .error e => .error e
    | .ok (rb, d2) =>
      match readUint order 1 d2 with
      | .error e => .error e
      | .ok (u8, d3) =>
        match readUint order 1 d3 with
        | .error e => .error e
        | .ok (seq, d4) =>
          .ok ({ target := uintToTargetSlice u64
                 reservedBlock := rb
                 reserved := u8 >>> 2
                 ackRequired := u8 >>> 1 &&& 1 == 1
                 resRequired := u8 &&& 1 == 1
                 sequence := seq }, d4)

/-! The `ProtocolHeader` codec (`protocol/protocol_header.go`). -/

/-- `ProtocolHeader` struct: third 12-byte header block. -/
structure ProtocolHeader where
  reserved : Nat
  type : Nat
  reservedEnd : Nat
deriving DecidableEq, Repr

/-- `ProtocolHeader.MarshalPacket`: writes `Reserved` (u64), `Type` (u16),
`ReservedEnd` (u16); never fails. -/
def ProtocolHeader.MarshalPacket (order : ByteOrder) (ph : ProtocolHeader) :
    Except GoErr (List Nat) :=
  .ok (putUint order 8 ph.reserved ++ putUint order 2 ph.type ++
    putUint order 2 ph.reservedEnd)

/-- `ProtocolHeader.UnmarshalPacket`: reads the three fields in order. -/
def ProtocolHeader.UnmarshalPacket (data : List Nat) (order : ByteOrder) :
    Except GoErr (ProtocolHeader × List Nat) :=
  match readUint order 8 data with
  | .error e => .error e
  | .ok (reserved, d1) =>
    match readUint order 2 d1 with
    | .error e => .error e
    | .ok (t, d2) =>
      match readUint order 2 d2 with
      | .error e => .error e
      | .ok (reservedEnd, d3) =>
        .ok ({ reserved := reserved, type := t, reservedEnd := reservedEnd }, d3)

/-! The `Header` composite (`protocol/header.go`). Go's nilable sub-component
pointers become `Option`s. -/

/-- `Header` struct: the three nilable sub-components. -/
structure Header where
  frame : Option Frame
  frameAddress : Option FrameAddress
  protocolHeader : Option ProtocolHeader
deriving DecidableEq, Repr

/-- `Header.MarshalPacket`: rejects a nil sub-component, marshals the three
components in order, then assembles them with `make([]byte, 36)` and three
`copy` calls at offsets 0, 8 and 24. -/
def Header.MarshalPacket (order : ByteOrder) (h : Header) :
    Except GoErr (List Nat) :=
  match h.frame, h.frameAddress, h.protocolHeader with
  | some fr, some fa, some ph =>
    match Frame.MarshalPacket order fr with
    | .error e => .error e
    | .ok frame =>
      match FrameAddress.MarshalPacket order fa with
      | .error e => .error e
      | .ok frameAddress =>
        match ProtocolHeader.MarshalPacket order ph with
        | .error e => .error e
        | .ok protocolHeader =>
          let packet := List.replicate HeaderByteSize 0
          let packet := goCopy packet frame
          let packet := setSeg packet FrameByteSize
            (FrameByteSize + FrameAddressByteSize) frameAddress
          let packet := setSeg packet (FrameByteSize + FrameAddressByteSize)
            HeaderByteSize protocolHeader
          .ok packet
  | _, _, _ => .error .headerFieldNil

/-- `Header.UnmarshalPacket`: decodes the three components in order from the
stream. A nil receiver sub-pointer in Go still consumes its bytes (the method
writes into a fresh local struct) but leaves the field nil, hence the
`Option.map`. -/
def Header.UnmarshalPacket (h : Header) (data : List Nat) (order : ByteOrder) :
    Except GoErr (Header × List Nat) :=
  match Frame.UnmarshalPacket data order with
  | .error e => .error e
  | .ok (fr, d1) =>
    match FrameAddress.UnmarshalPacket d1 order with
    | .error e => .error e
    | .ok (fa, d2) =>
      match ProtocolHeader.UnmarshalPacket d2 order with
      | .error e => .error e
      | .ok (ph, d3) =>
        .ok ({ frame := h.frame.map (fun _ => fr)
               frameAddress := h.frameAddress.map (fun _ => fa)
               protocolHeader := h.protocolHeader.map (fun _ => ph) }, d3)

/-! Package `lifxpayloads` (`protocol/payloads/device.go`, `lights.go`,
`util.go`). `float32`/`int16` fields carry their wire bit patterns;
`time.Duration` is `Int` nanoseconds. -/

/-- `lightMaxDuration = time.Millisecond * time.Duration(^uint32(0))`
nanoseconds. -/
def lightMaxDuration : Int := 1000000 * 4294967295

/-- `durToMs(dur) = uint32(dur / time.Millisecond)`: Go `int64` division
truncates toward zero and the `uint32` conversion keeps the low 32 bits. -/
def durToMs (dur : Int) : Nat :=
  (Int.emod (Int.tdiv dur 1000000) 4294967296).toNat

/-- `DeviceStateService` payload: `Service` (u8), `Port` (u32). -/
structure DeviceStateService where
  service : Nat
  port : Nat
deriving DecidableEq, Repr

/-- `DeviceStateHostInfo` payload: `Signal` (float32 bits), `Tx` (u32),
`Rx` (u32), `Reserved` (int16 bits). -/
structure DeviceStateHostInfo where
  signal : Nat
  tx : Nat
  rx : Nat
  reserved : Nat
deriving DecidableEq, Repr

/-- `DeviceStateHostFirmware` payload: `Build` (u64), `Reserved` (u64),
`Version` (u32). -/
structure DeviceStateHostFirmware where
  build : Nat
  reserved : Nat
  version : Nat
deriving DecidableEq, Repr

/-- `DeviceStateWifiInfo` payload: same shape as `DeviceStateHostInfo`. -/
structure DeviceStateWifiInfo where
  signal : Nat
  tx : Nat
  rx : Nat
  reserved : Nat
deriving DecidableEq, Repr

/-- `DeviceStateWifiFirmware` payload: same shape as
`DeviceStateHostFirmware`. -/
structure DeviceStateWifiFirmware where
  build : Nat
  reserved : Nat
  version : Nat
deriving DecidableEq, Repr

/-- `DeviceStatePower` payload: `Level` (u16). -/
structure DeviceStatePower where
  level : Nat
deriving DecidableEq, Repr

/-- `DeviceStateLabel` payload: `Label` (`[32]byte`). -/
structure DeviceStateLabel where
  label : List Nat
deriving DecidableEq, Repr

/-- `DeviceStateVersion` payload: `Vendor`, `Product`, `Version` (u32 each). -/
structure DeviceStateVersion where
  vendor : Nat
  product : Nat
  version : Nat
deriving DecidableEq, Repr

/-- `DeviceStateInfo` payload: `Time`, `Uptime`, `Downtime` (u64 each). -/
structure DeviceStateInfo where
  time : Nat
  uptime : Nat
  downtime : Nat
deriving DecidableEq, Repr

/-- `DeviceStateLocation` payload: `Location` (`[16]byte`), `Label`
(`[32]byte`), `UpdatedAt` (u64). -/
structure DeviceStateLocation where
  location : List Nat
  label : List Nat
  updatedAt : Nat
deriving DecidableEq, Repr

/-- `DeviceStateGroup` payload: `Group` (`[16]byte`), `Label` (`[32]byte`),
`UpdatedAt` (u64). -/
structure DeviceStateGroup where
  group : List Nat
  label : List Nat
  updatedAt : Nat
deriving DecidableEq, Repr

/-- `DeviceEcho` payload: `Payload` (`[64]byte`). -/
structure DeviceEcho where
  payload : List Nat
deriving DecidableEq, Repr

/-- `LightHSBK`: `Hue`, `Saturation`, `Brightness`, `Kelvin` (u16 each). -/
structure LightHSBK where
  hue : Nat
  saturation : Nat
  brightness : Nat
  kelvin : Nat
deriving DecidableEq, Repr

/-- `LightSetColor` payload: `Reserved` (u8), `Color` (nilable pointer),
`Duration` (`time.Duration`). -/
structure LightSetColor where
  reserved : Nat
  color : Option LightHSBK
  duration : Int
deriving DecidableEq, Repr

/-- `LightState` payload: `Color` (nilable pointer), `Reserved` (u16),
`Power` (u16), `Label` (`[32]byte`), `ReservedB` (u64). -/
structure LightState where
  color : Option LightHSBK
  reserved : Nat
  power : Nat
  label : List Nat
  reservedB : Nat
deriving DecidableEq, Repr

/-- `LightSetPower` payload: `Level` (u16), `Duration` (`time.Duration`). -/
structure LightSetPower where
  level : Nat
  duration : Int
deriving DecidableEq, Repr

/-- `LightStatePower` payload: `Level` (u16). -/
structure LightStatePower where
  level : Nat
deriving DecidableEq, Repr

/-- `LightHSBK.MarshalPacket`: four u16 writes. -/
def LightHSBK.MarshalPacket (order : ByteOrder) (hsbk : LightHSBK) :
    Except GoErr (List Nat) :=
  .ok (putUint order 2 hsbk.hue ++ putUint order 2 hsbk.saturation ++
    putUint order 2 hsbk.brightness ++ putUint order 2 hsbk.kelvin)

/-- `LightHSBK.UnmarshalPacket`: four u16 reads. -/
def LightHSBK.UnmarshalPacket (data : List Nat) (order : ByteOrder) :
    Except GoErr (LightHSBK × List Nat) :=
  match readUint order 2 data with
  | .error e => .error e
  | .ok (hue, d1) =>
    match readUint order 2 d1 with
    | .error e => .error e
    | .ok (saturation, d2) =>
      match readUint order 2 d2 with
      | .error e => .error e
      | .ok (brightness, d3) =>
        match readUint order 2 d3 with
        | .error e => .error e
        | .ok (kelvin, d4) =>
          .ok ({ hue := hue, saturation := saturation,
                 brightness := brightness, kelvin := kelvin }, d4)

/-- `DeviceStateService.MarshalPacket`. -/
def DeviceStateService.MarshalPacket (order : ByteOrder)
    (dss : DeviceStateService) : Except GoErr (List Nat) :=
  .ok (putUint order 1 dss.service ++ putUint order 4 dss.port)

/-- `DeviceStateService.UnmarshalPacket`. -/
def DeviceStateService.UnmarshalPacket (data : List Nat) (order : ByteOrder) :
    Except GoErr (DeviceStateService × List Nat) :=
  match readUint order 1 data with
  | .error e => .error e
  | .ok (service, d1) =>
    match readUint order 4 d1 with
    | .error e => .error e
    | .ok (port, d2) => .ok ({ service := service, port := port }, d2)

/-- `DeviceStateHostInfo.MarshalPacket`. -/
def DeviceStateHostInfo.MarshalPacket (order : ByteOrder)
    (dshi : DeviceStateHostInfo) : Except GoErr (List Nat) :=
  .ok (putUint order 4 dshi.signal ++ putUint order 4 dshi.tx ++
    putUint order 4 dshi.rx ++ putUint order 2 dshi.reserved)

/-- `DeviceStateHostInfo.UnmarshalPacket`. -/
def DeviceStateHostInfo.UnmarshalPacket (data : List Nat) (order : ByteOrder) :
    Except GoErr (DeviceStateHostInfo × List Nat) :=
  match readUint order 4 data with
  | .error e => .error e
  | .ok (signal, d1) =>
    match readUint order 4 d1 with
    | .error e => .error e
    | .ok (tx, d2) =>
      match readUint order 4 d2 with
      | .error e => .error e
      | .ok (rx, d3) =>
        match readUint order 2 d3 with
        | .error e => .error e
        | .ok (reserved, d4) =>
          .ok ({ signal := signal, tx := tx, rx := rx, reserved := reserved }, d4)

/-- `DeviceStateHostFirmware.MarshalPacket`. -/
def DeviceStateHostFirmware.MarshalPacket (order : ByteOrder)
    (dshf : DeviceStateHostFirmware) : Except GoErr (List Nat) :=
  .ok (putUint order 8 dshf.build ++ putUint order 8 dshf.reserved ++
    putUint order 4 dshf.version)

/-- `DeviceStateHostFirmware.UnmarshalPacket`. -/
def DeviceStateHostFirmware.UnmarshalPacket (data : List Nat)
    (order : ByteOrder) : Except GoErr (DeviceStateHostFirmware × List Nat) :=
  match readUint order 8 data with
  | .error e => .error e
  | .ok (build, d1) =>
    match readUint order 8 d1 with
    | .error e => .error e
    | .ok (reserved, d2) =>
      match readUint order 4 d2 with
      | .error e => .error e
      | .ok (version, d3) =>
        .ok ({ build := build, reserved := reserved, version := version }, d3)

/-- `DeviceStateWifiInfo.MarshalPacket`. -/
def DeviceStateWifiInfo.MarshalPacket (order : ByteOrder)
    (dswi : DeviceStateWifiInfo) : Except GoErr (List Nat) :=
  .ok (putUint order 4 dswi.signal ++ putUint order 4 dswi.tx ++
    putUint order 4 dswi.rx ++ putUint order 2 dswi.reserved)

/-- `DeviceStateWifiInfo.UnmarshalPacket`. -/
def DeviceStateWifiInfo.UnmarshalPacket (data : List Nat) (order : ByteOrder) :
    Except GoErr (DeviceStateWifiInfo × List Nat) :=
  match readUint order 4 data with
  | .error e => .error e
  | .ok (signal, d1) =>
    match readUint order 4 d1 with
    | .error e => .error e
    | .ok (tx, d2) =>
      match readUint order 4 d2 with
      | .error e => .error e
      | .ok (rx, d3) =>
        match readUint order 2 d3 with
        | .error e => .error e
        | .ok (reserved, d4) =>
          .ok ({ signal := signal, tx := tx, rx := rx, reserved := reserved }, d4)

/-- `DeviceStateWifiFirmware.MarshalPacket`. -/
def DeviceStateWifiFirmware.MarshalPacket (order : ByteOrder)
    (dswf : DeviceStateWifiFirmware) : Except GoErr (List Nat) :=
  .ok (putUint order 8 dswf.build ++ putUint order 8 dswf.reserved ++
    putUint order 4 dswf.version)

/-- `DeviceStateWifiFirmware.UnmarshalPacket`. -/
def DeviceStateWifiFirmware.UnmarshalPacket (data : List Nat)
    (order : ByteOrder) : Except GoErr (DeviceStateWifiFirmware × List Nat) :=
  match readUint order 8 data with
  | .error e => .error e
  | .ok (build, d1) =>
    match readUint order 8 d1 with
    | .error e => .error e
    | .ok (reserved, d2) =>
      match readUint order 4 d2 with
      | .error e => .error e
      | .ok (version, d3) =>
        .ok ({ build := build, reserved := reserved, version := version }, d3)

/-- `DeviceStatePower.MarshalPacket`. -/
def DeviceStatePower.MarshalPacket (order : ByteOrder)
    (dsp : DeviceStatePower) : Except GoErr (List Nat) :=
  .ok (putUint order 2 dsp.level)

/-- `DeviceStatePower.UnmarshalPacket`. -/
def DeviceStatePower.UnmarshalPacket (data : List Nat) (order : ByteOrder) :
    Except GoErr (DeviceStatePower × List Nat) :=
  match readUint order 2 data with
  | .error e => .error e
  | .ok (level, d1) => .ok ({ level := level }, d1)

/-- `DeviceStateLabel.MarshalPacket`: 32 single-byte writes. -/
def DeviceStateLabel.MarshalPacket (order : ByteOrder)
    (dsl : DeviceStateLabel) : Except GoErr (List Nat) :=
  .ok (putArr order 32 dsl.label)

/-- `DeviceStateLabel.UnmarshalPacket`: 32 single-byte reads. -/
def DeviceStateLabel.UnmarshalPacket (data : List Nat) (order : ByteOrder) :
    Except GoErr (DeviceStateLabel × List Nat) :=
  match readNBytes 32 data with
  | .error e => .error e
  | .ok (label, d1) => .ok ({ label := label }, d1)

/-- `DeviceStateVersion.MarshalPacket`. -/
def DeviceStateVersion.MarshalPacket (order : ByteOrder)
    (dsv : DeviceStateVersion) : Except GoErr (List Nat) :=
  .ok (putUint order 4 dsv.vendor ++ putUint order 4 dsv.product ++
    putUint order 4 dsv.version)

/-- `DeviceStateVersion.UnmarshalPacket`. -/
def DeviceStateVersion.UnmarshalPacket (data : List Nat) (order : ByteOrder) :
    Except GoErr (DeviceStateVersion × List Nat) :=
  match readUint order 4 data with
  | .error e => .error e
  | .ok (vendor, d1) =>
    match readUint order 4 d1 with
    | .error e => .error e
    | .ok (product, d2) =>
      match readUint order 4 d2 with
      | .error e => .error e
      | .ok (version, d3) =>
        .ok ({ vendor := vendor, product := product, version := version }, d3)

/-- `DeviceStateInfo.MarshalPacket`. -/
def DeviceStateInfo.MarshalPacket (order : ByteOrder)
    (dsi : DeviceStateInfo) : Except GoErr (List Nat) :=
  .ok (putUint order 8 dsi.time ++ putUint order 8 dsi.uptime ++
    putUint order 8 dsi.downtime)

/-- `DeviceStateInfo.UnmarshalPacket`. -/
def DeviceStateInfo.UnmarshalPacket (data : List Nat) (order : ByteOrder) :
    Except GoErr (DeviceStateInfo × List Nat) :=
  match readUint order 8 data with
  | .error e => .error e
  | .ok (time, d1) =>
    match readUint order 8 d1 with
    | .error e => .error e
    | .ok (uptime, d2) =>
      match readUint order 8 d2 with
      | .error e => .error e
      | .ok (downtime, d3) =>
        .ok ({ time := time, uptime := uptime, downtime := downtime }, d3)

/-- `DeviceStateLocation.MarshalPacket`. -/
def DeviceStateLocation.MarshalPacket (order : ByteOrder)
    (dsl : DeviceStateLocation) : Except GoErr (List Nat) :=
  .ok (putArr order 16 dsl.location ++ putArr order 32 dsl.label ++
    putUint order 8 dsl.updatedAt)

/-- `DeviceStateLocation.UnmarshalPacket`. -/
def DeviceStateLocation.UnmarshalPacket (data : List Nat) (order : ByteOrder) :
    Except GoErr (DeviceStateLocation × List Nat) :=
  match readNBytes 16 data with
  | .error e => .error e
  | .ok (location, d1) =>
    match readNBytes 32 d1 with
    | .error e => .error e
    | .ok (label, d2) =>
      match readUint order 8 d2 with
      | .error e => .error e
      | .ok (updatedAt, d3) =>
        .ok ({ location := location, label := label, updatedAt := updatedAt }, d3)

/-- `DeviceStateGroup.MarshalPacket`. -/
def DeviceStateGroup.MarshalPacket (order : ByteOrder)
    (dsg : DeviceStateGroup) : Except GoErr (List Nat) :=
  .ok (putArr order 16 dsg.group ++ putArr order 32 dsg.label ++
    putUint order 8 dsg.updatedAt)

/-- `DeviceStateGroup.UnmarshalPacket`. -/
def DeviceStateGroup.UnmarshalPacket (data : List Nat) (order : ByteOrder) :
    Except GoErr (DeviceStateGroup × List Nat) :=
  match readNBytes 16 data with
  | .error e => .error e
  | .ok (group, d1) =>
    match readNBytes 32 d1 with
    | .error e => .error e
    | .ok (label, d2) =>
      match readUint order 8 d2 with
      | .error e => .error e
      | .ok (updatedAt, d3) =>
        .ok ({ group := group, label := label, updatedAt := updatedAt }, d3)

/-- `DeviceEcho.MarshalPacket`: 64 single-byte writes. -/
def DeviceEcho.MarshalPacket (order : ByteOrder) (de : DeviceEcho) :
    Except GoErr (List Nat) :=
  .ok (putArr order 64 de.payload)

/-- `DeviceEcho.UnmarshalPacket`: 64 single-byte reads. -/
def DeviceEcho.UnmarshalPacket (data : List Nat) (order : ByteOrder) :
    Except GoErr (DeviceEcho × List Nat) :=
  match readNBytes 64 data with
  | .error e => .error e
  | .ok (payload, d1) => .ok ({ payload := payload }, d1)

/-- `LightSetColor.MarshalPacket`: nil-color and duration-overflow checks,
then `Reserved` (u8), the HSBK bytes, and `durToMs(Duration)` (u32). -/
def LightSetColor.MarshalPacket (order : ByteOrder) (lsc : LightSetColor) :
    Except GoErr (List Nat) :=
  match lsc.color with
  | none => .error .lightColorNotSet
  | some color =>
    if lsc.duration > lightMaxDuration then .error .setColorDurationOverflow
    else
      match LightHSBK.MarshalPacket order color with
      | .error e => .error e
      | .ok colorPacket =>
        .ok (putUint order 1 lsc.reserved ++ colorPacket ++
          putUint order 4 (durToMs lsc.duration))

/-- `LightSetColor.UnmarshalPacket`: `Reserved` (u8), the HSBK fields, then
the u32 millisecond duration converted back with `msToDur`. -/
def LightSetColor.UnmarshalPacket (data : List Nat) (order : ByteOrder) :
    Except GoErr (LightSetColor × List Nat) :=
  match readUint order 1 data with
  | .error e => .error e
  | .ok (reserved, d1) =>
    match LightHSBK.UnmarshalPacket d1 order with
    | .error e => .error e
    | .ok (color, d2) =>
      match readUint order 4 d2 with
      | .error e => .error e
      | .ok (u32, d3) =>
        .ok ({ reserved := reserved, color := some color,
               duration := (u32 : Int) * 1000000 }, d3)

/-- `LightState.MarshalPacket`: nil-color check, then the HSBK bytes,
`Reserved` (u16), `Power` (u16), `Label` (32 bytes), `ReservedB` (u64). -/
def LightState.MarshalPacket (order : ByteOrder) (ls : LightState) :
    Except GoErr (List Nat) :=
  match ls.color with
  | none => .error .lightColorNotSet
  | some color =>
    match LightHSBK.MarshalPacket order color with
    | .error e => .error e
    | .ok colorPacket =>
      .ok (colorPacket ++ putUint order 2 ls.reserved ++
        putUint order 2 ls.power ++ putArr order 32 ls.label ++
        putUint order 8 ls.reservedB)

/-- `LightState.UnmarshalPacket`. -/
def LightState.UnmarshalPacket (data : List Nat) (order : ByteOrder) :
    Except GoErr (LightState × List Nat) :=
  match LightHSBK.UnmarshalPacket data order with
  | .error e => .error e
  | .ok (color, d1) =>
    match readUint order 2 d1 with
    | .error e => .error e
    | .ok (reserved, d2) =>
      match readUint order 2 d2 with
      | .error e => .error e
      | .ok (power, d3) =>
        match readNBytes 32 d3 with
        | .error e => .error e
        | .ok (label, d4) =>
          match readUint order 8 d4 with
          | .error e => .error e
          | .ok (reservedB, d5) =>
            .ok ({ color := some color, reserved := reserved, power := power,
                   label := label, reservedB := reservedB }, d5)

/-- `LightSetPower.MarshalPacket`: duration-overflow check, then `Level`
(u16) and `durToMs(Duration)` (u32). -/
def LightSetPower.MarshalPacket (order : ByteOrder) (lsp : LightSetPower) :
    Except GoErr (List Nat) :=
  if lsp.duration > lightMaxDuration then .error .setPowerDurationOverflow
  else
    .ok (putUint order 2 lsp.level ++ putUint order 4 (durToMs lsp.duration))

/-- `LightSetPower.UnmarshalPacket`. -/
def LightSetPower.UnmarshalPacket (data : List Nat) (order : ByteOrder) :
    Except GoErr (LightSetPower × List Nat) :=
  match readUint order 2 data with
  | .error e => .error e
  | .ok (level, d1) =>
    match readUint order 4 d1 with
    | .error e => .error e
    | .ok (u32, d2) =>
      .ok ({ level := level, duration := (u32 : Int) * 1000000 }, d2)

/-- `LightStatePower.MarshalPacket`. -/
def LightStatePower.MarshalPacket (order : ByteOrder) (lsp : LightStatePower) :
    Except GoErr (List Nat) :=
  .ok (putUint order 2 lsp.level)

/-- `LightStatePower.UnmarshalPacket`. -/
def LightStatePower.UnmarshalPacket (data : List Nat) (order : ByteOrder) :
    Except GoErr (LightStatePower × List Nat) :=
  match readUint order 2 data with
  | .error e => .error e
  | .ok (level, d1) => .ok ({ level := level }, d1)

/-! Message-type constants (`protocol/protocol_header.go`). -/

/-- `DeviceGetService = 2`. -/
def DeviceGetServiceT : Nat := 2
/-- `DeviceStateService = 3`. -/
def DeviceStateServiceT : Nat := 3
/-- `DeviceGetHostInfo = 12`. -/
def DeviceGetHostInfoT : Nat := 12
/-- `DeviceStateHostInfo = 13`. -/
def DeviceStateHostInfoT : Nat := 13
/-- `DeviceGetHostFirmware = 14`. -/
def DeviceGetHostFirmwareT : Nat := 14
/-- `DeviceStateHostFirmware = 15`. -/
def DeviceStateHostFirmwareT : Nat := 15
/-- `DeviceGetWifiInfo = 16`. -/
def DeviceGetWifiInfoT : Nat := 16
/-- `DeviceStateWifiInfo = 17`. -/
def DeviceStateWifiInfoT : Nat := 17
/-- `DeviceGetWifiFirmware = 18`. -/
def DeviceGetWifiFirmwareT : Nat := 18
/-- `DeviceStateWifiFirmware = 19`. -/
def DeviceStateWifiFirmwareT : Nat := 19
/-- `DeviceGetPower = 20`. -/
def DeviceGetPowerT : Nat := 20
/-- `DeviceSetPower = 21`. -/
def DeviceSetPowerT : Nat := 21
/-- `DeviceStatePower = 22`. -/
def DeviceStatePowerT : Nat := 22
/-- `DeviceGetLabel = 23`. -/
def DeviceGetLabelT : Nat := 23
/-- `DeviceSetLabel = 24`. -/
def DeviceSetLabelT : Nat := 24
/-- `DeviceStateLabel = 25`. -/
def DeviceStateLabelT : Nat := 25
/-- `DeviceGetVersion = 32`. -/
def DeviceGetVersionT : Nat := 32
/-- `DeviceStateVersion = 33`. -/
def DeviceStateVersionT : Nat := 33
/-- `DeviceGetInfo = 34`. -/
def DeviceGetInfoT : Nat := 34
/-- `DeviceStateInfo = 35`. -/
def DeviceStateInfoT : Nat := 35
/-- `DeviceAcknowledgement = 45`. -/
def DeviceAcknowledgementT : Nat := 45
/-- `DeviceGetLocation = 48`. -/
def DeviceGetLocationT : Nat := 48
/-- `DeviceStateLocation = 50`. -/
def DeviceStateLocationT : Nat := 50
/-- `DeviceGetGroup = 51`. -/
def DeviceGetGroupT : Nat := 51
/-- `DeviceStateGroup = 53`. -/
def DeviceStateGroupT : Nat := 53
/-- `DeviceEchoRequest = 58`. -/
def DeviceEchoRequestT : Nat := 58
/-- `DeviceEchoResponse = 59`. -/
def DeviceEchoResponseT : Nat := 59
/-- `LightGet = 101`. -/
def LightGetT : Nat := 101
/-- `LightSetColor = 102`. -/
def LightSetColorT : Nat := 102
/-- `LightState = 107`. -/
def LightStateT : Nat := 107
/-- `LightGetPower = 116`. -/
def LightGetPowerT : Nat := 116
/-- `LightSetPower = 117`. -/
def LightSetPowerT : Nat := 117
/-- `LightStatePower = 118`. -/
def LightStatePowerT : Nat := 118

/-- A value of Go's open `PacketComponent` interface. One constructor per
payload struct the repository implements; `ext` stands for any other
implementer of the interface (its observable behaviour being its
`MarshalPacket` and `UnmarshalPacket` methods). The registry below only ever
produces the named constructors. -/
inductive Payload where
  | deviceStateService (v : DeviceStateService)
  | deviceStateHostInfo (v : DeviceStateHostInfo)
  | deviceStateHostFirmware (v : DeviceStateHostFirmware)
  | deviceStateWifiInfo (v : DeviceStateWifiInfo)
  | deviceStateWifiFirmware (v : DeviceStateWifiFirmware)
  | deviceStatePower (v : DeviceStatePower)
  | deviceStateLabel (v : DeviceStateLabel)
  | deviceStateVersion (v : DeviceStateVersion)
  | deviceStateInfo (v : DeviceStateInfo)
  | deviceStateLocation (v : DeviceStateLocation)
  | deviceStateGroup (v : DeviceStateGroup)
  | deviceEcho (v : DeviceEcho)
  | lightSetColor (v : LightSetColor)
  | lightState (v : LightState)
  | lightSetPower (v : LightSetPower)
  | lightStatePower (v : LightStatePower)
  | ext (marshal : ByteOrder → Except GoErr (List Nat))
      (unmarshal : List Nat → ByteOrder → Except GoErr (Payload × List Nat))

/-- Dynamic dispatch of `Payload.MarshalPacket(order)` on the interface
value. -/
def Payload.MarshalPacket (order : ByteOrder) : Payload → Except GoErr (List Nat)
  | .deviceStateService v => DeviceStateService.MarshalPacket order v
  | .deviceStateHostInfo v => DeviceStateHostInfo.MarshalPacket order v
  | .deviceStateHostFirmware v => DeviceStateHostFirmware.MarshalPacket order v
  | .deviceStateWifiInfo v => DeviceStateWifiInfo.MarshalPacket order v
  | .deviceStateWifiFirmware v => DeviceStateWifiFirmware.MarshalPacket order v
  | .deviceStatePower v => DeviceStatePower.MarshalPacket order v
  | .deviceStateLabel v => DeviceStateLabel.MarshalPacket order v
  | .deviceStateVersion v => DeviceStateVersion.MarshalPacket order v
  | .deviceStateInfo v => DeviceStateInfo.MarshalPacket order v
  | .deviceStateLocation v => DeviceStateLocation.MarshalPacket order v
  | .deviceStateGroup v => DeviceStateGroup.MarshalPacket order v
  | .deviceEcho v => DeviceEcho.MarshalPacket order v
  | .lightSetColor v => LightSetColor.MarshalPacket order v
  | .lightState v => LightState.MarshalPacket order v
  | .lightSetPower v => LightSetPower.MarshalPacket order v
  | .lightStatePower v => LightStatePower.MarshalPacket order v
  | .ext marshal _ => marshal order

/-- Dynamic dispatch of `Payload.UnmarshalPacket(data, order)` on the
interface value: decodes into a value of the receiver's type. -/
def Payload.UnmarshalPacket (p : Payload) (data : List Nat)
    (order : ByteOrder) : Except GoErr (Payload × List Nat) :=
  match p with
  | .deviceStateService _ =>
    (DeviceStateService.UnmarshalPacket data order).map
      (fun r => (.deviceStateService r.1, r.2))
  | .deviceStateHostInfo _ =>
    (DeviceStateHostInfo.UnmarshalPacket data order).map
      (fun r => (.deviceStateHostInfo r.1, r.2))
  | .deviceStateHostFirmware _ =>
    (DeviceStateHostFirmware.UnmarshalPacket data order).map
      (fun r => (.deviceStateHostFirmware r.1, r.2))
  | .deviceStateWifiInfo _ =>
    (DeviceStateWifiInfo.UnmarshalPacket data order).map
      (fun r => (.deviceStateWifiInfo r.1, r.2))
  | .deviceStateWifiFirmware _ =>
    (DeviceStateWifiFirmware.UnmarshalPacket data order).map
      (fun r => (.deviceStateWifiFirmware r.1, r.2))
  | .deviceStatePower _ =>
    (DeviceStatePower.UnmarshalPacket data order).map
      (fun r => (.deviceStatePower r.1, r.2))
  | .deviceStateLabel _ =>
    (DeviceStateLabel.UnmarshalPacket data order).map
      (fun r => (.deviceStateLabel r.1, r.2))
  | .deviceStateVersion _ =>
    (DeviceStateVersion.UnmarshalPacket data order).map
      (fun r => (.deviceStateVersion r.1, r.2))
  | .deviceStateInfo _ =>
    (DeviceStateInfo.UnmarshalPacket data order).map
      (fun r => (.deviceStateInfo r.1, r.2))
  | .deviceStateLocation _ =>
    (DeviceStateLocation.UnmarshalPacket data order).map
      (fun r => (.deviceStateLocation r.1, r.2))
  | .deviceStateGroup _ =>
    (DeviceStateGroup.UnmarshalPacket data order).map
      (fun r => (.deviceStateGroup r.1, r.2))
  | .deviceEcho _ =>
    (DeviceEcho.UnmarshalPacket data order).map
      (fun r => (.deviceEcho r.1, r.2))
  | .lightSetColor _ =>
    (LightSetColor.UnmarshalPacket data order).map
      (fun r => (.lightSetColor r.1, r.2))
  | .lightState _ =>
    (LightState.UnmarshalPacket data order).map
      (fun r => (.lightState r.1, r.2))
  | .lightSetPower _ =>
    (LightSetPower.UnmarshalPacket data order).map
      (fun r => (.lightSetPower r.1, r.2))
  | .lightStatePower _ =>
    (LightStatePower.UnmarshalPacket data order).map
      (fun r => (.lightStatePower r.1, r.2))
  | .ext _ unmarshal => unmarshal data order

/-- `packetComponentByType` from `protocol.go:132-185`: the registry mapping
a message-type code to a zero-valued payload of the type that decodes it.
NOTE: the source's `case DeviceStateLocation` arm at `protocol.go:161-162`
returns `&lifxpayloads.DeviceStateInfo{}` — not `DeviceStateLocation` — and
this definition reproduces that faithfully. -/
def packetComponentByType (t : Nat) : Option Payload :=
  if t = DeviceStateServiceT then some (.deviceStateService ⟨0, 0⟩)
  else if t = DeviceStateHostInfoT then some (.deviceStateHostInfo ⟨0, 0, 0, 0⟩)
  else if t = DeviceStateHostFirmwareT then
    some (.deviceStateHostFirmware ⟨0, 0, 0⟩)
  else if t = DeviceStateWifiInfoT then some (.deviceStateWifiInfo ⟨0, 0, 0, 0⟩)
  else if t = DeviceStateWifiFirmwareT then
    some (.deviceStateWifiFirmware ⟨0, 0, 0⟩)
  else if t = DeviceStatePowerT ∨ t = DeviceSetPowerT then
    some (.deviceStatePower ⟨0⟩)
  else if t = DeviceStateLabelT ∨ t = DeviceSetLabelT then
    some (.deviceStateLabel ⟨List.replicate 32 0⟩)
  else if t = DeviceStateVersionT then some (.deviceStateVersion ⟨0, 0, 0⟩)
  else if t = DeviceStateInfoT then some (.deviceStateInfo ⟨0, 0, 0⟩)
  else if t = DeviceStateLocationT then some (.deviceStateInfo ⟨0, 0, 0⟩)
  else if t = DeviceStateGroupT then
    some (.deviceStateGroup ⟨List.replicate 16 0, List.replicate 32 0, 0⟩)
  else if t = DeviceEchoResponseT ∨ t = DeviceEchoRequestT then
    some (.deviceEcho ⟨List.replicate 64 0⟩)
  else if t = LightSetColorT then some (.lightSetColor ⟨0, none, 0⟩)
  else if t = LightStateT then
    some (.lightState ⟨none, 0, 0, List.replicate 32 0, 0⟩)
  else if t = LightSetPowerT then some (.lightSetPower ⟨0, 0⟩)
  else if t = LightStatePowerT then some (.lightStatePower ⟨0⟩)
  else none

/-- `Packet` struct: nilable `Header` pointer and nilable `Payload`
interface value. -/
structure Packet where
  header : Option Header
  payload : Option Payload

/-- `Packet.MarshalPacket` (`protocol.go:89-130`): nil checks, payload
encode, total-size computation and overflow check, `Header.Frame.Size`
mutation (on the returned packet value), header encode, then assembly with
`make([]byte, tbs)` and two `copy` calls. Returns the (possibly mutated)
packet together with the result. If `Header.Frame` is nil Go would panic at
the size assignment; the model leaves the nil field in place (and the
subsequent header encode fails). -/
def Packet.MarshalPacket (p : Packet) (order : ByteOrder) :
    Packet × Except GoErr (List Nat) :=
  match p.header with
  | none => (p, .error .packetHeaderNil)
  | some hdr =>
    match p.payload with
    | none => (p, .error .packetPayloadNil)
    | some pl =>
      match Payload.MarshalPacket order pl with
      | .error e => (p, .error e)
      | .ok payload =>
        let tbs := HeaderByteSize + payload.length
        if tbs > maxUint16 then (p, .error .sizeOverflow)
        else
          let hdr1 : Header :=
            { hdr with frame := hdr.frame.map (fun fr => { fr with size := tbs }) }
          let p1 : Packet := { p with header := some hdr1 }
          match Header.MarshalPacket order hdr1 with
          | .error e => (p1, .error e)
          | .ok header =>
            let packet := List.replicate tbs 0
            let packet := goCopy packet header
            let packet := setSeg packet HeaderByteSize tbs payload
            (p1, .ok packet)

/-- `Packet.unmarshalPayload` (`protocol.go:187-204`): nil check on the
protocol header, registry lookup, and payload decode. (Go dereferences
`p.Header` without a nil check here; the method is only called right after
the header was assigned.) -/
def Packet.unmarshalPayload (p : Packet) (data : List Nat)
    (order : ByteOrder) : Except GoErr Payload :=
  match p.header with
  | none => .error .protocolHeaderNil
  | some hdr =>
    match hdr.protocolHeader with
    | none => .error .protocolHeaderNil
    | some ph =>
      match packetComponentByType ph.type with
      | none => .error .unknownType
      | some pc =>
        match Payload.UnmarshalPacket pc data order with
        | .error e => .error e
        | .ok (pc1, _) => .ok pc1

/-- `Packet.UnmarshalPacket` (`protocol.go:207-229`): decodes a fresh,
fully-allocated header, assigns it to the packet, then dispatches and decodes
the payload. Returns the (possibly partially) mutated packet together with
the error result. -/
def Packet.UnmarshalPacket (p : Packet) (data : List Nat)
    (order : ByteOrder) : Packet × Except GoErr Unit :=
  let hdr0 : Header :=
    { frame := some ⟨0, 0, false, false, 0, 0⟩
      frameAddress := some ⟨[], [0, 0, 0, 0, 0, 0], 0, false, false, 0⟩
      protocolHeader := some ⟨0, 0, 0⟩ }
  match Header.UnmarshalPacket hdr0 data order with
  | .error e => (p, .error e)
  | .ok (hdr, rest) =>
    let p1 : Packet := { p with header := some hdr }
    match Packet.unmarshalPayload p1 rest order with
    | .error e => (p1, .error e)
    | .ok payload => ({ p1 with payload := some payload }, .ok ())

/-! Characterisation of the bit-packed fields. -/

theorem midPack (o p t a : Nat) (ho : o ≤ 3) (hp : p ≤ 4095) (ht : t ≤ 1)
    (ha : a ≤ 1) :
    ((o * 16384 ||| p) ||| t * 8192) ||| a * 4096 =
      o * 16384 + t * 8192 + a * 4096 + p := by
  have h1 : o * 16384 ||| p = o * 16384 + p :=
    lor_eq_add _ _ 14 (by omega) (by omega)
  have h2 : (o * 16384 + p) ||| t * 8192 = o * 16384 + t * 8192 + p := by
    rw [← h1, Nat.lor_assoc, Nat.lor_comm p (t * 8192),
      lor_eq_add (t * 8192) p 13 (by omega) (by omega),
      lor_eq_add (o * 16384) (t * 8192 + p) 14 (by omega) (by omega)]
    omega
  have h2x : (o * 16384 + t * 8192) ||| p = o * 16384 + t * 8192 + p :=
    lor_eq_add _ _ 12 (by omega) (by omega)
  have h3 : (o * 16384 + t * 8192 + p) ||| a * 4096 =
      o * 16384 + t * 8192 + a * 4096 + p := by
    rw [← h2x, Nat.lor_assoc, Nat.lor_comm p (a * 4096),
      lor_eq_add (a * 4096) p 12 (by omega) (by omega),
      lor_eq_add (o * 16384 + t * 8192) (a * 4096 + p) 13 (by omega)
        (by omega)]
    omega
  rw [h1, h2, h3]

theorem packU8 (r ack res : Nat) (hr : r ≤ 63) (hack : ack ≤ 1)
    (hres : res ≤ 1) :
    r <<< 2 ||| ack <<< 1 ||| res = r * 4 + ack * 2 + res := by
  rw [Nat.shiftLeft_eq, Nat.shiftLeft_eq]
  have h1 : r * 2 ^ 2 ||| ack * 2 ^ 1 = r * 4 + ack * 2 := by
    have := lor_eq_add (r * 4) (ack * 2) 2 (by omega) (by omega)
    simpa using this
  rw [h1, lor_eq_add (r * 4 + ack * 2) res 1 (by omega) (by omega)]

/-- For in-range `Origin` and `Protocol`, `Frame.MarshalPacket` succeeds and
its packed middle u16 is `Origin` in the top 2 bits, `Tagged` at bit 13,
`Addressable` at bit 12, and `Protocol` in the low 12 bits. -/
theorem frame_marshal_ok (order : ByteOrder) (f : Frame) (ho : f.origin ≤ 3)
    (hp : f.protocol ≤ 4095) :
    Frame.MarshalPacket order f = .ok (putUint order 2 f.size ++
      putUint order 2 (f.origin * 16384 + (if f.tagged then 8192 else 0) +
        (if f.addressable then 4096 else 0) + f.protocol) ++
      putUint order 4 f.source) := by
  have hno : ¬ f.origin > MaxFrameOrigin := by
    simp only [MaxFrameOrigin]; omega
  have hnp : ¬ f.protocol > MaxFrameProtocol := by
    simp only [MaxFrameProtocol]; omega
  simp only [Frame.MarshalPacket, hno, hnp, if_false]
  have e0 : ((f.origin % 256) <<< 14) % 65536 = f.origin * 16384 := by
    rw [Nat.shiftLeft_eq]
    omega
  have e1 : ((f.protocol <<< 4) % 65536) >>> 4 = f.protocol := by
    rw [Nat.shiftLeft_eq, Nat.shiftRight_eq_div_pow]
    omega
  rw [e0, e1]
  have e13 : (1 : Nat) <<< 13 = 1 * 8192 := by decide
  have e12 : (1 : Nat) <<< 12 = 1 * 4096 := by decide
  cases htag : f.tagged <;> cases haddr : f.addressable <;>
    simp only [Bool.false_eq_true, if_false, if_true, e13, e12]
  · rw [lor_eq_add (f.origin * 16384) f.protocol 14 (by omega) (by omega)]
    norm_num
  · have h := midPack f.origin f.protocol 0 1 ho hp (by omega) (by omega)
    simp only [Nat.zero_mul, Nat.or_zero] at h
    rw [h]
  · have h := midPack f.origin f.protocol 1 0 ho hp (by omega) (by omega)
    simp only [Nat.zero_mul, Nat.or_zero] at h
    rw [h]
  · have h := midPack f.origin f.protocol 1 1 ho hp (by omega) (by omega)
    rw [h]

theorem frame_unmarshal_append (order : ByteOrder) (size mid source : Nat)
    (rest : List Nat) :
    Frame.UnmarshalPacket
      (putUint order 2 size ++ (putUint order 2 mid ++
        (putUint order 4 source ++ rest))) order =
      .ok ({ size := size % 256 ^ 2
             origin := ((mid % 256 ^ 2) >>> 14) % 256
             tagged := (mid % 256 ^ 2) >>> 13 &&& 1 == 1
             addressable := (mid % 256 ^ 2) >>> 12 &&& 1 == 1
             protocol := (((mid % 256 ^ 2) <<< 4) % 65536) >>> 4
             source := source % 256 ^ 4 }, rest) := by
  simp only [Frame.UnmarshalPacket, readUint_putUint]

/-- Round-trip for the `Frame` codec: decoding a marshalled frame (plus any
trailing stream) recovers the frame and the trailing stream, for any frame
within the Go field types (`origin`, `protocol` in their validated ranges,
`size` a u16, `source` a u32). -/
theorem frame_roundtrip (order : ByteOrder) (f : Frame) (bs rest : List Nat)
    (ho : f.origin ≤ 3) (hp : f.protocol ≤ 4095) (hs : f.size < 65536)
    (hsrc : f.source < 4294967296)
    (hm : Frame.MarshalPacket order f = .ok bs) :
    Frame.UnmarshalPacket (bs ++ rest) order = .ok (f, rest) := by
  obtain ⟨fsize, forigin, ftagged, faddr, fproto, fsource⟩ := f
  simp only at ho hp hs hsrc
  rw [frame_marshal_ok order _ ho hp] at hm
  injection hm with hbs
  subst hbs
  simp only [List.append_assoc]
  rw [frame_unmarshal_append]
  cases htag : ftagged <;> cases haddr : faddr <;>
    simp only [Bool.false_eq_true, if_false, if_true] <;>
    simp only [Except.ok.injEq, Prod.mk.injEq, Frame.mk.injEq] <;>
    refine ⟨⟨?_, ?_, ?_, ?_, ?_, ?_⟩, trivial⟩
  · omega
  · omega
  · have h : (((forigin * 16384 + 0 + 0 + fproto) % 256 ^ 2) >>> 13) &&& 1 = 0 := by
      rw [Nat.and_one_is_mod]; omega
    rw [h]; rfl
  · have h : (((forigin * 16384 + 0 + 0 + fproto) % 256 ^ 2) >>> 12) &&& 1 = 0 := by
      rw [Nat.and_one_is_mod]; omega
    rw [h]; rfl
  · omega
  · omega
  · omega
  · omega
  · have h : (((forigin * 16384 + 0 + 4096 + fproto) % 256 ^ 2) >>> 13) &&& 1 = 0 := by
      rw [Nat.and_one_is_mod]; omega
    rw [h]; rfl
  · have h : (((forigin * 16384 + 0 + 4096 + fproto) % 256 ^ 2) >>> 12) &&& 1 = 1 := by
      rw [Nat.and_one_is_mod]; omega
    rw [h]; rfl
  · omega
  · omega
  · omega
  · omega
  · have h : (((forigin * 16384 + 8192 + 0 + fproto) % 256 ^ 2) >>> 13) &&& 1 = 1 := by
      rw [Nat.and_one_is_mod]; omega
    rw [h]; rfl
  · have h : (((forigin * 16384 + 8192 + 0 + fproto) % 256 ^ 2) >>> 12) &&& 1 = 0 := by
      rw [Nat.and_one_is_mod]; omega
    rw [h]; rfl
  · omega
  · omega
  · omega
  · omega
  · have h : (((forigin * 16384 + 8192 + 4096 + fproto) % 256 ^ 2) >>> 13) &&& 1 = 1 := by
      rw [Nat.and_one_is_mod]; omega
    rw [h]; rfl
  · have h : (((forigin * 16384 + 8192 + 4096 + fproto) % 256 ^ 2) >>> 12) &&& 1 = 1 := by
      rw [Nat.and_one_is_mod]; omega
    rw [h]; rfl
  · omega
  · omega

theorem targetSliceToUint_eq_sum (b0 b1 b2 b3 b4 b5 : Nat)
    (h1 : b1 < 256) (h2 : b2 < 256) (h3 : b3 < 256) (h4 : b4 < 256)
    (h5 : b5 < 256) :
    targetSliceToUint [b0, b1, b2, b3, b4, b5] =
      b0 * 2 ^ 55 + b1 * 2 ^ 47 + b2 * 2 ^ 39 + b3 * 2 ^ 31 + b4 * 2 ^ 23 +
        b5 * 2 ^ 15 := by
  have e : targetSliceToUint [b0, b1, b2, b3, b4, b5] =
      b0 <<< 55 ||| b1 <<< 47 ||| b2 <<< 39 ||| b3 <<< 31 ||| b4 <<< 23 |||
        b5 <<< 15 := rfl
  rw [e]
  simp only [Nat.shiftLeft_eq]
  rw [lor_eq_add (b0 * 2 ^ 55) (b1 * 2 ^ 47) 55 (by omega) (by omega)]
  rw [lor_eq_add (b0 * 2 ^ 55 + b1 * 2 ^ 47) (b2 * 2 ^ 39) 47 (by omega)
    (by omega)]
  rw [lor_eq_add (b0 * 2 ^ 55 + b1 * 2 ^ 47 + b2 * 2 ^ 39) (b3 * 2 ^ 31) 39
    (by omega) (by omega)]
  rw [lor_eq_add (b0 * 2 ^ 55 + b1 * 2 ^ 47 + b2 * 2 ^ 39 + b3 * 2 ^ 31)
    (b4 * 2 ^ 23) 31 (by omega) (by omega)]
  rw [lor_eq_add
    (b0 * 2 ^ 55 + b1 * 2 ^ 47 + b2 * 2 ^ 39 + b3 * 2 ^ 31 + b4 * 2 ^ 23)
    (b5 * 2 ^ 15) 23 (by omega) (by omega)]

/-- Round-trip of the 6-byte address through the `uint64` representation. -/
theorem uintToTargetSlice_roundtrip (t : List Nat) (hlen : t.length = 6)
    (hb : ∀ b ∈ t, b < 256) :
    uintToTargetSlice (targetSliceToUint t) = t := by
  rcases t with _ | ⟨b0, _ | ⟨b1, _ | ⟨b2, _ | ⟨b3, _ | ⟨b4, _ | ⟨b5, tl⟩⟩⟩⟩⟩⟩ <;>
    simp only [List.length_nil, List.length_cons] at hlen <;> try omega
  have htl : tl = [] := by
    have : tl.length = 0 := by omega
    simpa using this
  subst htl
  have h0 : b0 < 256 := hb b0 (by simp)
  have h1 : b1 < 256 := hb b1 (by simp)
  have h2 : b2 < 256 := hb b2 (by simp)
  have h3 : b3 < 256 := hb b3 (by simp)
  have h4 : b4 < 256 := hb b4 (by simp)
  have h5 : b5 < 256 := hb b5 (by simp)
  rw [targetSliceToUint_eq_sum b0 b1 b2 b3 b4 b5 h1 h2 h3 h4 h5]
  simp only [uintToTargetSlice, List.cons.injEq, and_true]
  refine ⟨?_, ?_, ?_, ?_, ?_, ?_⟩ <;> omega

/-- For in-range `Reserved`, `FrameAddress.MarshalPacket` succeeds; the
target u64 is the encoded target when `Target` has a valid shape and `0`
otherwise (the empty `else` branch), and the packed byte is
`Reserved*4 + ack*2 + res`. -/
theorem frameAddress_marshal_ok (order : ByteOrder) (fa : FrameAddress)
    (hr : fa.reserved ≤ 63) :
    FrameAddress.MarshalPacket order fa = .ok (putUint order 8
        (if fa.target.length = 6 ∨
            (fa.target.length = 8 ∧ fa.target.getD 6 0 = 0 ∧
              fa.target.getD 7 0 = 0) then
          targetSliceToUint fa.target
        else 0) ++
      putArr order 6 fa.reservedBlock ++
      putUint order 1 (fa.reserved * 4 +
        (if fa.ackRequired then 1 else 0) * 2 +
        (if fa.resRequired then 1 else 0)) ++
      putUint order 1 fa.sequence) := by
  have hnr : ¬ fa.reserved > MaxFrameAddressReserved := by
    simp only [MaxFrameAddressReserved]; omega
  simp only [FrameAddress.MarshalPacket, hnr, if_false]
  cases hack : fa.ackRequired <;> cases hres : fa.resRequired <;>
    simp only [Bool.false_eq_true, if_false, if_true]
  · rw [packU8 fa.reserved 0 0 hr (by omega) (by omega)]
  · rw [packU8 fa.reserved 0 1 hr (by omega) (by omega)]
  · rw [packU8 fa.reserved 1 0 hr (by omega) (by omega)]
  · rw [packU8 fa.reserved 1 1 hr (by omega) (by omega)]

theorem frameAddress_unmarshal_append (order : ByteOrder) (u64 : Nat)
    (rb : List Nat) (u8 seq : Nat) (rest : List Nat) (hrb : rb.length = 6)
    (hrbb : ∀ b ∈ rb, b < 256) :
    FrameAddress.UnmarshalPacket (putUint order 8 u64 ++ (rb ++
      (putUint order 1 u8 ++ (putUint order 1 seq ++ rest)))) order =
      .ok ({ target := uintToTargetSlice (u64 % 256 ^ 8)
             reservedBlock := rb
             reserved := (u8 % 256 ^ 1) >>> 2
             ackRequired := ((u8 % 256 ^ 1) >>> 1) &&& 1 == 1
             resRequired := (u8 % 256 ^ 1) &&& 1 == 1
             sequence := seq % 256 ^ 1 }, rest) := by
  simp only [FrameAddress.UnmarshalPacket, readUint_putUint,
    readNBytes_append 6 rb (putUint order 1 u8 ++ (putUint order 1 seq ++ rest))
      hrb hrbb]

theorem beq_one_true {X : Nat} (h : X = 1) : (X == 1) = true := by
  subst h; rfl

theorem beq_one_false {X : Nat} (h : X = 0) : (X == 1) = false := by
  subst h; rfl

theorem targetSliceToUint_lt (t : List Nat) (hlen : t.length = 6)
    (hb : ∀ b ∈ t, b < 256) : targetSliceToUint t < 2 ^ 64 := by
  rcases t with _ | ⟨b0, _ | ⟨b1, _ | ⟨b2, _ | ⟨b3, _ | ⟨b4, _ | ⟨b5, tl⟩⟩⟩⟩⟩⟩ <;>
    simp only [List.length_nil, List.length_cons] at hlen <;> try omega
  have htl : tl = [] := by
    have : tl.length = 0 := by omega
    simpa using this
  subst htl
  have h1 : b1 < 256 := hb b1 (by simp)
  have h2 : b2 < 256 := hb b2 (by simp)
  have h3 : b3 < 256 := hb b3 (by simp)
  have h4 : b4 < 256 := hb b4 (by simp)
  have h5 : b5 < 256 := hb b5 (by simp)
  have h0 : b0 < 256 := hb b0 (by simp)
  rw [targetSliceToUint_eq_sum b0 b1 b2 b3 b4 b5 h1 h2 h3 h4 h5]
  omega

/-- Round-trip for the `FrameAddress` codec, for any value within the Go
field types with a 6-byte target. -/
theorem frameAddress_roundtrip (order : ByteOrder) (fa : FrameAddress)
    (bs rest : List Nat) (hr : fa.reserved ≤ 63) (htl : fa.target.length = 6)
    (htb : ∀ b ∈ fa.target, b < 256) (hrbl : fa.reservedBlock.length = 6)
    (hrbb : ∀ b ∈ fa.reservedBlock, b < 256) (hseq : fa.sequence < 256)
    (hm : FrameAddress.MarshalPacket order fa = .ok bs) :
    FrameAddress.UnmarshalPacket (bs ++ rest) order = .ok (fa, rest) := by
  obtain ⟨t, rb, r, ack, res, seq⟩ := fa
  simp only at hr htl htb hrbl hrbb hseq
  rw [frameAddress_marshal_ok _ _ hr] at hm
  injection hm with hbs
  subst hbs
  have hcond : (t.length = 6 ∨
      (t.length = 8 ∧ t.getD 6 0 = 0 ∧ t.getD 7 0 = 0)) := Or.inl htl
  rw [if_pos hcond, putArr_eq_self order 6 rb hrbl hrbb]
  simp only [List.append_assoc]
  rw [frameAddress_unmarshal_append order _ rb _ _ rest hrbl hrbb]
  have hU : targetSliceToUint t % 256 ^ 8 = targetSliceToUint t := by
    have hlt := targetSliceToUint_lt t htl htb
    have h2 : (256 : Nat) ^ 8 = 2 ^ 64 := by norm_num
    omega
  cases hack : ack <;> cases hres : res <;>
    simp only [Bool.false_eq_true, if_false, if_true] <;>
    simp only [Except.ok.injEq, Prod.mk.injEq, FrameAddress.mk.injEq] <;>
    refine ⟨⟨?_, ?_, ?_, ?_, ?_, ?_⟩, trivial⟩ <;>
    first
    | (rw [hU]; exact uintToTargetSlice_roundtrip t htl htb)
    | trivial
    | omega
    | (refine beq_one_true ?_; rw [Nat.and_one_is_mod]; omega)
    | (refine beq_one_false ?_; rw [Nat.and_one_is_mod]; omega)

theorem protocolHeader_unmarshal_append (order : ByteOrder) (r t re : Nat)
    (rest : List Nat) :
    ProtocolHeader.UnmarshalPacket (putUint order 8 r ++ (putUint order 2 t ++
      (putUint order 2 re ++ rest))) order =
      .ok ({ reserved := r % 256 ^ 8, type := t % 256 ^ 2,
             reservedEnd := re % 256 ^ 2 }, rest) := by
  simp only [ProtocolHeader.UnmarshalPacket, readUint_putUint]

/-- Round-trip for the `ProtocolHeader` codec, for any value within the Go
field types. -/
theorem protocolHeader_roundtrip (order : ByteOrder) (ph : ProtocolHeader)
    (bs rest : List Nat) (hres : ph.reserved < 2 ^ 64) (ht : ph.type < 65536)
    (hre : ph.reservedEnd < 65536)
    (hm : ProtocolHeader.MarshalPacket order ph = .ok bs) :
    ProtocolHeader.UnmarshalPacket (bs ++ rest) order = .ok (ph, rest) := by
  obtain ⟨r, t, re⟩ := ph
  simp only at hres ht hre
  simp only [ProtocolHeader.MarshalPacket, Except.ok.injEq] at hm
  subst hm
  simp only [List.append_assoc]
  rw [protocolHeader_unmarshal_append]
  simp only [Except.ok.injEq, Prod.mk.injEq, ProtocolHeader.mk.injEq]
  refine ⟨⟨?_, ?_, ?_⟩, trivial⟩ <;> omega

theorem frame_marshal_length (order : ByteOrder) (f : Frame) (bs : List Nat)
    (hm : Frame.MarshalPacket order f = .ok bs) : bs.length = 8 := by
  unfold Frame.MarshalPacket at hm
  split at hm
  · cases hm
  · split at hm
    · cases hm
    · injection hm with hbs
      subst hbs
      simp [putUint_length]

theorem frameAddress_marshal_length (order : ByteOrder) (fa : FrameAddress)
    (bs : List Nat) (hm : FrameAddress.MarshalPacket order fa = .ok bs) :
    bs.length = 16 := by
  unfold FrameAddress.MarshalPacket at hm
  split at hm
  · cases hm
  · injection hm with hbs
    subst hbs
    simp [putUint_length, putArr_length]

theorem protocolHeader_marshal_length (order : ByteOrder)
    (ph : ProtocolHeader) (bs : List Nat)
    (hm : ProtocolHeader.MarshalPacket order ph = .ok bs) : bs.length = 12 := by
  unfold ProtocolHeader.MarshalPacket at hm
  injection hm with hbs
  subst hbs
  simp [putUint_length]

theorem setSeg_assembly3 (fb fab phb : List Nat) (h1 : fb.length = 8)
    (h2 : fab.length = 16) (h3 : phb.length = 12) :
    setSeg (setSeg (goCopy (List.replicate HeaderByteSize 0) fb) FrameByteSize
        (FrameByteSize + FrameAddressByteSize) fab)
      (FrameByteSize + FrameAddressByteSize) HeaderByteSize phb =
      fb ++ fab ++ phb := by
  simp only [HeaderByteSize, FrameByteSize, FrameAddressByteSize,
    ProtocolHeaderByteSize]
  norm_num
  have e1 : goCopy (List.replicate 36 0) fb = fb ++ List.replicate 28 0 := by
    rw [goCopy_of_le _ _ (by simp [h1]), h1, replicate_drop]
  rw [e1]
  have e2 : setSeg (fb ++ List.replicate 28 0) 8 24 fab =
      (fb ++ fab) ++ List.replicate 12 0 := by
    unfold setSeg
    rw [List.take_left' h1, List.drop_left' h1]
    norm_num
    rw [goCopy_exact _ _ (by simp [h2])]
    rw [show (24 : Nat) = 8 + 16 from rfl, ← List.drop_drop,
      List.drop_left' h1, replicate_drop]
  rw [e2]
  have h12 : (fb ++ fab).length = 24 := by simp [h1, h2]
  unfold setSeg
  rw [List.take_left' h12, List.drop_left' h12]
  norm_num
  rw [goCopy_exact _ _ (by simp [h3])]
  rw [← List.append_assoc,
    show (36 : Nat) = 24 + 12 from rfl, ← List.drop_drop,
    List.drop_left' h12, replicate_drop]
  norm_num

theorem setSeg_assembly2 (hb pb : List Nat) (h1 : hb.length = 36) :
    setSeg (goCopy (List.replicate (36 + pb.length) 0) hb) 36
      (36 + pb.length) pb = hb ++ pb := by
  have e1 : goCopy (List.replicate (36 + pb.length) 0) hb =
      hb ++ List.replicate pb.length 0 := by
    rw [goCopy_of_le _ _ (by simp [h1]), h1, replicate_drop]
    norm_num
  rw [e1]
  unfold setSeg
  rw [List.take_left' h1, List.drop_left' h1]
  have en : 36 + pb.length - 36 = pb.length := by omega
  rw [en, replicate_take, Nat.min_self]
  rw [goCopy_exact _ _ (by simp)]
  rw [← List.drop_drop, List.drop_left' h1, replicate_drop]
  simp

theorem header_marshal_concat (order : ByteOrder) (h : Header) (fr : Frame)
    (fa : FrameAddress) (ph : ProtocolHeader) (fb fab phb : List Nat)
    (hf : h.frame = some fr) (hfa : h.frameAddress = some fa)
    (hph : h.protocolHeader = some ph)
    (m1 : Frame.MarshalPacket order fr = .ok fb)
    (m2 : FrameAddress.MarshalPacket order fa = .ok fab)
    (m3 : ProtocolHeader.MarshalPacket order ph = .ok phb) :
    Header.MarshalPacket order h = .ok (fb ++ fab ++ phb) := by
  obtain ⟨f0, fa0, ph0⟩ := h
  simp only at hf hfa hph
  subst hf hfa hph
  simp only [Header.MarshalPacket, m1, m2, m3]
  rw [setSeg_assembly3 fb fab phb (frame_marshal_length order fr fb m1)
    (frameAddress_marshal_length order fa fab m2)
    (protocolHeader_marshal_length order ph phb m3)]

theorem header_marshal_nil (order : ByteOrder) (h : Header)
    (hn : h.frame = none ∨ h.frameAddress = none ∨ h.protocolHeader = none) :
    Header.MarshalPacket order h = .error .headerFieldNil := by
  obtain ⟨f0, fa0, ph0⟩ := h
  simp only at hn
  cases f0 <;> cases fa0 <;> cases ph0 <;> first | rfl | simp_all

theorem readUint_consumes (order : ByteOrder) (w : Nat) (data : List Nat)
    (v : Nat) (rest : List Nat) (h : readUint order w data = .ok (v, rest)) :
    rest = data.drop w := by
  unfold readUint at h
  split at h
  · cases h
  · injection h with h1
    simp only [Prod.mk.injEq] at h1
    exact h1.2.symm

theorem readNBytes_consumes (n : Nat) (data : List Nat) (bs rest : List Nat)
    (h : readNBytes n data = .ok (bs, rest)) : rest = data.drop n := by
  unfold readNBytes at h
  split at h
  · cases h
  · injection h with h1
    simp only [Prod.mk.injEq] at h1
    exact h1.2.symm

theorem frame_unmarshal_consumes (data : List Nat) (order : ByteOrder)
    (fr : Frame) (rest : List Nat)
    (h : Frame.UnmarshalPacket data order = .ok (fr, rest)) :
    rest = data.drop 8 := by
  unfold Frame.UnmarshalPacket at h
  split at h
  · cases h
  next v1 d1 h1 =>
    split at h
    · cases h
    next v2 d2 h2 =>
      split at h
      · cases h
      next v3 d3 h3 =>
        injection h with h4
        simp only [Prod.mk.injEq] at h4
        rw [h4.2.symm, readUint_consumes _ _ _ _ _ h3,
          readUint_consumes _ _ _ _ _ h2, readUint_consumes _ _ _ _ _ h1,
          List.drop_drop, List.drop_drop]

theorem frameAddress_unmarshal_consumes (data : List Nat) (order : ByteOrder)
    (fa : FrameAddress) (rest : List Nat)
    (h : FrameAddress.UnmarshalPacket data order = .ok (fa, rest)) :
    rest = data.drop 16 := by
  unfold FrameAddress.UnmarshalPacket at h
  split at h
  · cases h
  next v1 d1 h1 =>
    split at h
    · cases h
    next v2 d2 h2 =>
      split at h
      · cases h
      next v3 d3 h3 =>
        split at h
        · cases h
        next v4 d4 h4 =>
          injection h with h5
          simp only [Prod.mk.injEq] at h5
          rw [h5.2.symm, readUint_consumes _ _ _ _ _ h4,
            readUint_consumes _ _ _ _ _ h3, readNBytes_consumes _ _ _ _ h2,
            readUint_consumes _ _ _ _ _ h1, List.drop_drop, List.drop_drop,
            List.drop_drop]

theorem protocolHeader_unmarshal_consumes (data : List Nat)
    (order : ByteOrder) (ph : ProtocolHeader) (rest : List Nat)
    (h : ProtocolHeader.UnmarshalPacket data order = .ok (ph, rest)) :
    rest = data.drop 12 := by
  unfold ProtocolHeader.UnmarshalPacket at h
  split at h
  · cases h
  next v1 d1 h1 =>
    split at h
    · cases h
    next v2 d2 h2 =>
      split at h
      · cases h
      next v3 d3 h3 =>
        injection h with h4
        simp only [Prod.mk.injEq] at h4
        rw [h4.2.symm, readUint_consumes _ _ _ _ _ h3,
          readUint_consumes _ _ _ _ _ h2, readUint_consumes _ _ _ _ _ h1,
          List.drop_drop, List.drop_drop]

/-- C1: the claim says that for a `Target` that is neither exactly 6 bytes
nor a zero-padded 8-byte value (here the 3-byte `[1, 2, 3]`),
`FrameAddress.MarshalPacket` must fail with the malformed-target error and
must not emit bytes with a silently zeroed address field. The code instead
succeeds, returning 16 bytes whose 8-byte address field is all zeroes: the
`else` branch at `frame_address.go:85-87` is empty and
`ErrFrameAddressTargetMalformed` is never returned. This theorem evaluates
the embedded code at that failing input. -/
theorem claim_C1_silent_zero_target :
    FrameAddress.MarshalPacket .LE
      { target := [1, 2, 3], reservedBlock := [0, 0, 0, 0, 0, 0],
        reserved := 0, ackRequired := false, resRequired := false,
        sequence := 0 } = .ok (List.replicate 16 0) := by
  rfl

/-- C2: the claim says each registered message-type code decodes to the
payload type corresponding to that code, in particular that the
device state-location code (50) yields the location-state payload. The
registry entry for code 50 at `protocol.go:161-162` instead returns a
zero-valued `DeviceStateInfo`, so `Packet.UnmarshalPacket` of a
state-location packet decodes a `DeviceStateInfo` (24-byte time layout) from
the first bytes of the 56-byte location payload. This theorem evaluates the
registry and a full decode at that failing input. -/
theorem claim_C2_state_location_registry_bug :
    packetComponentByType DeviceStateLocationT =
      some (.deviceStateInfo ⟨0, 0, 0⟩) ∧
    (Packet.UnmarshalPacket ⟨none, none⟩
        ([100, 0, 0, 0, 0, 0, 0, 0] ++ List.replicate 16 0 ++
          (List.replicate 8 0 ++ [50, 0, 0, 0]) ++ List.range 56)
        .LE).fst.payload =
      some (.deviceStateInfo
        ⟨506097522914230528, 1084818905618843912, 1663540288323457296⟩) ∧
    (Packet.UnmarshalPacket ⟨none, none⟩
        ([100, 0, 0, 0, 0, 0, 0, 0] ++ List.replicate 16 0 ++
          (List.replicate 8 0 ++ [50, 0, 0, 0]) ++ List.range 56)
        .LE).snd = .ok () := by
  refine ⟨rfl, rfl, rfl⟩

/-- C5: the claim says the address encoder places byte 0 at bits 63–56
(left-justified byte lanes) with the low 16 bits always zero. The code
shifts byte `i` by `55 - 8*i` instead of `56 - 8*i` (`util/util.go:18-23`),
so byte 0 occupies bits 62–55 (encoding `[1,0,0,0,0,0]` gives `2^55`, not
`2^56`) and the low 16 bits are not always zero (encoding `[0,0,0,0,0,1]`
gives `2^15`, whose low 16 bits are nonzero). This contradicts the
function's own documentation ("left-justify the value and zero-fill the
last two bytes"). -/
theorem claim_C5_address_lanes_off_by_one :
    HardwareAddrToUint64 [1, 0, 0, 0, 0, 0] = 2 ^ 55 ∧
    (2 : Nat) ^ 55 ≠ 2 ^ 56 ∧
    HardwareAddrToUint64 [0, 0, 0, 0, 0, 1] = 2 ^ 15 ∧
    HardwareAddrToUint64 [0, 0, 0, 0, 0, 1] % 2 ^ 16 ≠ 0 := by
  refine ⟨by decide, by decide, by decide, by decide⟩

/-- C6: field-range validation is exact at the bit-width boundaries and
aborts before any output: `Frame.MarshalPacket` succeeds for every in-range
frame (so in particular for `origin = 3` and `protocol = 4095`) and fails
with the origin-overflow (resp. protocol-overflow) error, returning no
bytes, for every `origin > 3` (resp. `protocol > 4095` with in-range
origin); `FrameAddress.MarshalPacket` succeeds for every `reserved ≤ 63`
and fails with the reserved-overflow error for every `reserved > 63`. -/
theorem claim_C6_boundary_validation :
    (∀ (order : ByteOrder) (f : Frame), f.origin ≤ 3 → f.protocol ≤ 4095 →
      (Frame.MarshalPacket order f).isOk = true) ∧
    (∀ (order : ByteOrder) (f : Frame), f.origin > 3 →
      Frame.MarshalPacket order f = .error .originOverflow) ∧
    (∀ (order : ByteOrder) (f : Frame), f.origin ≤ 3 → f.protocol > 4095 →
      Frame.MarshalPacket order f = .error .protocolOverflow) ∧
    (∀ (order : ByteOrder) (fa : FrameAddress), fa.reserved ≤ 63 →
      (FrameAddress.MarshalPacket order fa).isOk = true) ∧
    (∀ (order : ByteOrder) (fa : FrameAddress), fa.reserved > 63 →
      FrameAddress.MarshalPacket order fa = .error .reservedOverflow) := by
  refine ⟨?_, ?_, ?_, ?_, ?_⟩
  · intro order f ho hp
    rw [frame_marshal_ok order f ho hp]
    rfl
  · intro order f ho
    unfold Frame.MarshalPacket
    rw [if_pos (by simp only [MaxFrameOrigin]; omega)]
  · intro order f ho hp
    unfold Frame.MarshalPacket
    rw [if_neg (by simp only [MaxFrameOrigin]; omega),
      if_pos (by simp only [MaxFrameProtocol]; omega)]
  · intro order fa hr
    rw [frameAddress_marshal_ok order fa hr]
    rfl
  · intro order fa hr
    unfold FrameAddress.MarshalPacket
    rw [if_pos (by simp only [MaxFrameAddressReserved]; omega)]

/-- C6 witness: the boundary values themselves — `origin = 3` and
`protocol = 4095` encode, `origin = 4` and `protocol = 4096` fail with the
respective overflow errors; `reserved = 63` encodes, `reserved = 64`
fails. -/
theorem claim_C6_boundary_validation_witness :
    (Frame.MarshalPacket .LE ⟨0, 3, false, false, 4095, 0⟩).isOk = true ∧
    Frame.MarshalPacket .LE ⟨0, 4, false, false, 1024, 0⟩ =
      .error .originOverflow ∧
    Frame.MarshalPacket .LE ⟨0, 3, false, false, 4096, 0⟩ =
      .error .protocolOverflow ∧
    (FrameAddress.MarshalPacket .LE
      ⟨[0, 0, 0, 0, 0, 0], [0, 0, 0, 0, 0, 0], 63, false, false, 0⟩).isOk =
      true ∧
    FrameAddress.MarshalPacket .LE
      ⟨[0, 0, 0, 0, 0, 0], [0, 0, 0, 0, 0, 0], 64, false, false, 0⟩ =
      .error .reservedOverflow :=
  ⟨claim_C6_boundary_validation.1 .LE _ (by decide) (by decide),
   claim_C6_boundary_validation.2.1 .LE _ (by decide),
   claim_C6_boundary_validation.2.2.1 .LE _ (by decide) (by decide),
   claim_C6_boundary_validation.2.2.2.1 .LE _ (by decide),
   claim_C6_boundary_validation.2.2.2.2 .LE _ (by decide)⟩

/-- C7: for every frame with `origin ≤ 3` and `protocol ≤ 4095`,
`Frame.MarshalPacket` returns exactly 8 bytes: the u16 `Size`, then a packed
u16 whose top 2 bits are `Origin`, bit 13 the `Tagged` flag, bit 12 the
`Addressable` flag and bottom 12 bits `Protocol`, then the u32 `Source`,
each written in the chosen byte order. -/
theorem claim_C7_frame_layout (order : ByteOrder) (f : Frame)
    (ho : f.origin ≤ 3) (hp : f.protocol ≤ 4095) :
    Frame.MarshalPacket order f = .ok (putUint order 2 f.size ++
      putUint order 2 (f.origin * 2 ^ 14 + (if f.tagged then 2 ^ 13 else 0) +
        (if f.addressable then 2 ^ 12 else 0) + f.protocol) ++
      putUint order 4 f.source) ∧
    (∀ bs : List Nat, Frame.MarshalPacket order f = .ok bs →
      bs.length = 8) := by
  constructor
  · have h := frame_marshal_ok order f ho hp
    norm_num at h ⊢
    exact h
  · intro bs hbs
    exact frame_marshal_length order f bs hbs

/-- C7 witness: a concrete frame encoded little-endian; the packed u16 is
`1*2^14 + 2^13 + 2^12 + 1024 = 29696`, i.e. bytes `[0, 116]`. -/
theorem claim_C7_frame_layout_witness :
    Frame.MarshalPacket .LE ⟨258, 1, true, true, 1024, 70000⟩ =
      .ok [2, 1, 0, 116, 112, 17, 1, 0] ∧
    [2, 1, 0, 116, 112, 17, 1, 0].length = 8 :=
  ⟨by
    rw [(claim_C7_frame_layout .LE ⟨258, 1, true, true, 1024, 70000⟩
      (by decide) (by decide)).1]
    rfl, rfl⟩

/-- C4: decode after encode is the identity for each codec — the 6-byte
address codec (`Uint64ToHardwareAddr ∘ HardwareAddrToUint64`), the `Frame`
codec for `origin ≤ 3` and `protocol ≤ 4095` (any tagged/addressable and
any u16 `size` / u32 `source`), the `FrameAddress` codec for
`reserved ≤ 63` and a 6-byte target, and the `ProtocolHeader` codec for any
value of its field types, each under the same byte order on both
directions. Byte-level bounds (`< 256` etc.) state the Go field types. -/
theorem claim_C4_roundtrip :
    (∀ t : List Nat, t.length = 6 → (∀ b ∈ t, b < 256) →
      Uint64ToHardwareAddr (HardwareAddrToUint64 t) = t) ∧
    (∀ (order : ByteOrder) (f : Frame) (bs rest : List Nat),
      f.origin ≤ 3 → f.protocol ≤ 4095 → f.size < 65536 →
      f.source < 4294967296 → Frame.MarshalPacket order f = .ok bs →
      Frame.UnmarshalPacket (bs ++ rest) order = .ok (f, rest)) ∧
    (∀ (order : ByteOrder) (fa : FrameAddress) (bs rest : List Nat),
      fa.reserved ≤ 63 → fa.target.length = 6 → (∀ b ∈ fa.target, b < 256) →
      fa.reservedBlock.length = 6 → (∀ b ∈ fa.reservedBlock, b < 256) →
      fa.sequence < 256 → FrameAddress.MarshalPacket order fa = .ok bs →
      FrameAddress.UnmarshalPacket (bs ++ rest) order = .ok (fa, rest)) ∧
    (∀ (order : ByteOrder) (ph : ProtocolHeader) (bs rest : List Nat),
      ph.reserved < 2 ^ 64 → ph.type < 65536 → ph.reservedEnd < 65536 →
      ProtocolHeader.MarshalPacket order ph = .ok bs →
      ProtocolHeader.UnmarshalPacket (bs ++ rest) order = .ok (ph, rest)) := by
  refine ⟨?_, ?_, ?_, ?_⟩
  · intro t hlen hb
    exact uintToTargetSlice_roundtrip t hlen hb
  · intro order f bs rest ho hp hs hsrc hm
    exact frame_roundtrip order f bs rest ho hp hs hsrc hm
  · intro order fa bs rest hr htl htb hrbl hrbb hseq hm
    exact frameAddress_roundtrip order fa bs rest hr htl htb hrbl hrbb hseq hm
  · intro order ph bs rest hres ht hre hm
    exact protocolHeader_roundtrip order ph bs rest hres ht hre hm

/-- C4 witness: concrete round trips — the address `01:23:45:67:89:ab`, a
little-endian frame, a big-endian frame address, and a little-endian
protocol header, each with a trailing byte left in the stream. -/
theorem claim_C4_roundtrip_witness :
    Uint64ToHardwareAddr (HardwareAddrToUint64 [1, 35, 69, 103, 137, 171]) =
      [1, 35, 69, 103, 137, 171] ∧
    Frame.UnmarshalPacket ([2, 1, 0, 116, 112, 17, 1, 0] ++ [9]) .LE =
      .ok (⟨258, 1, true, true, 1024, 70000⟩, [9]) ∧
    FrameAddress.UnmarshalPacket
      ([0, 129, 1, 130, 2, 131, 0, 0, 7, 8, 9, 10, 11, 12, 134, 200] ++ [7])
      .BE =
      .ok (⟨[1, 2, 3, 4, 5, 6], [7, 8, 9, 10, 11, 12], 33, true, false, 200⟩,
        [7]) ∧
    ProtocolHeader.UnmarshalPacket
      ([1, 0, 0, 0, 0, 0, 0, 0, 2, 0, 3, 0] ++ [4]) .LE =
      .ok (⟨1, 2, 3⟩, [4]) :=
  ⟨claim_C4_roundtrip.1 [1, 35, 69, 103, 137, 171] rfl (by decide),
   claim_C4_roundtrip.2.1 .LE ⟨258, 1, true, true, 1024, 70000⟩ _ [9]
     (by decide) (by decide) (by decide) (by decide) rfl,
   claim_C4_roundtrip.2.2.1 .BE
     ⟨[1, 2, 3, 4, 5, 6], [7, 8, 9, 10, 11, 12], 33, true, false, 200⟩ _ [7]
     (by decide) rfl (by decide) rfl (by decide) (by decide) rfl,
   claim_C4_roundtrip.2.2.2 .LE ⟨1, 2, 3⟩ _ [4] (by decide) (by decide)
     (by decide) rfl⟩

/-- C8: `Header.MarshalPacket` fails with the structural (nil-field) error
whenever any of the `Frame`, `FrameAddress` or `ProtocolHeader`
sub-components is absent, and on success returns exactly 36 bytes equal to
the concatenation of the encoded `Frame` (8 bytes), `FrameAddress`
(16 bytes) and `ProtocolHeader` (12 bytes). -/
theorem claim_C8_header_composition :
    (∀ (order : ByteOrder) (h : Header),
      h.frame = none ∨ h.frameAddress = none ∨ h.protocolHeader = none →
      Header.MarshalPacket order h = .error .headerFieldNil) ∧
    (∀ (order : ByteOrder) (h : Header) (fr : Frame) (fa : FrameAddress)
      (ph : ProtocolHeader) (fb fab phb : List Nat),
      h.frame = some fr → h.frameAddress = some fa →
      h.protocolHeader = some ph →
      Frame.MarshalPacket order fr = .ok fb →
      FrameAddress.MarshalPacket order fa = .ok fab →
      ProtocolHeader.MarshalPacket order ph = .ok phb →
      Header.MarshalPacket order h = .ok (fb ++ fab ++ phb) ∧
      fb.length = 8 ∧ fab.length = 16 ∧ phb.length = 12 ∧
      (fb ++ fab ++ phb).length = 36) := by
  constructor
  · intro order h hn
    exact header_marshal_nil order h hn
  · intro order h fr fa ph fb fab phb hf hfa hph m1 m2 m3
    have l1 := frame_marshal_length order fr fb m1
    have l2 := frameAddress_marshal_length order fa fab m2
    have l3 := protocolHeader_marshal_length order ph phb m3
    refine ⟨header_marshal_concat order h fr fa ph fb fab phb hf hfa hph
      m1 m2 m3, l1, l2, l3, ?_⟩
    simp [l1, l2, l3]

/-- C8 witness: a header with a missing frame is rejected; a fully
populated header encodes to the concatenation of its three components
(36 bytes). -/
theorem claim_C8_header_composition_witness :
    Header.MarshalPacket .LE
      ⟨none, some ⟨[0, 0, 0, 0, 0, 0], [0, 0, 0, 0, 0, 0], 0, false, false, 0⟩,
        some ⟨0, 0, 0⟩⟩ = .error .headerFieldNil ∧
    Header.MarshalPacket .LE
      ⟨some ⟨258, 1, true, true, 1024, 70000⟩,
        some ⟨[1, 2, 3, 4, 5, 6], [7, 8, 9, 10, 11, 12], 33, true, false, 200⟩,
        some ⟨11, 22, 33⟩⟩ =
      .ok ([2, 1, 0, 116, 112, 17, 1, 0] ++
        [0, 0, 131, 2, 130, 1, 129, 0, 7, 8, 9, 10, 11, 12, 134, 200] ++
        [11, 0, 0, 0, 0, 0, 0, 0, 22, 0, 33, 0]) :=
  ⟨claim_C8_header_composition.1 .LE _ (Or.inl rfl),
   (claim_C8_header_composition.2 .LE _ ⟨258, 1, true, true, 1024, 70000⟩
     ⟨[1, 2, 3, 4, 5, 6], [7, 8, 9, 10, 11, 12], 33, true, false, 200⟩
     ⟨11, 22, 33⟩ _ _ _ rfl rfl rfl rfl rfl rfl).1⟩

/-- C9: when `Packet.UnmarshalPacket` decodes a header whose message-type
code has no registry entry, it returns the unknown-type error, does not set
`Packet.Payload` (the field keeps its previous value), and leaves
`Packet.Header` populated with the fully decoded header, the decode having
consumed exactly the 36 header bytes. -/
theorem claim_C9_unknown_type (p : Packet) (data : List Nat)
    (order : ByteOrder) (fr : Frame) (fa : FrameAddress)
    (ph : ProtocolHeader) (d1 d2 d3 : List Nat)
    (h1 : Frame.UnmarshalPacket data order = .ok (fr, d1))
    (h2 : FrameAddress.UnmarshalPacket d1 order = .ok (fa, d2))
    (h3 : ProtocolHeader.UnmarshalPacket d2 order = .ok (ph, d3))
    (hu : packetComponentByType ph.type = none) :
    Packet.UnmarshalPacket p data order =
      ({ header := some { frame := some fr, frameAddress := some fa,
                          protocolHeader := some ph },
         payload := p.payload }, .error .unknownType) ∧
    d3 = data.drop 36 := by
  constructor
  · simp only [Packet.UnmarshalPacket, Header.UnmarshalPacket, h1, h2, h3,
      Option.map_some', Packet.unmarshalPayload, hu]
  · rw [protocolHeader_unmarshal_consumes d2 order ph d3 h3,
      frameAddress_unmarshal_consumes d1 order fa d2 h2,
      frame_unmarshal_consumes data order fr d1 h1, List.drop_drop,
      List.drop_drop]

/-- C9 witness: a 36-byte stream whose message type is 2
(`DeviceGetService`, which has no registry entry) decodes to the
unknown-type error with the header populated and the payload left unset. -/
theorem claim_C9_unknown_type_witness :
    Packet.UnmarshalPacket ⟨none, none⟩
      ([100, 0, 0, 20, 9, 0, 0, 0] ++ List.replicate 16 0 ++
        (List.replicate 8 0 ++ [2, 0, 0, 0])) .LE =
      ({ header := some
          { frame := some ⟨100, 0, false, true, 1024, 9⟩,
            frameAddress := some
              ⟨[0, 0, 0, 0, 0, 0], [0, 0, 0, 0, 0, 0], 0, false, false, 0⟩,
            protocolHeader := some ⟨0, 2, 0⟩ },
         payload := none }, .error .unknownType) :=
  (claim_C9_unknown_type ⟨none, none⟩
    ([100, 0, 0, 20, 9, 0, 0, 0] ++ List.replicate 16 0 ++
      (List.replicate 8 0 ++ [2, 0, 0, 0])) .LE
    ⟨100, 0, false, true, 1024, 9⟩
    ⟨[0, 0, 0, 0, 0, 0], [0, 0, 0, 0, 0, 0], 0, false, false, 0⟩ ⟨0, 2, 0⟩
    (List.replicate 16 0 ++ (List.replicate 8 0 ++ [2, 0, 0, 0]))
    (List.replicate 8 0 ++ [2, 0, 0, 0]) [] (by rfl) (by rfl) (by rfl)
    (by rfl)).1

theorem packet_marshal_overflow (p : Packet) (order : ByteOrder)
    (hdr : Header) (pl : Payload) (plBytes : List Nat)
    (hh : p.header = some hdr) (hp : p.payload = some pl)
    (hm : Payload.MarshalPacket order pl = .ok plBytes)
    (hbig : 36 + plBytes.length > 65535) :
    Packet.MarshalPacket p order = (p, .error .sizeOverflow) := by
  obtain ⟨h0, pl0⟩ := p
  simp only at hh hp
  subst hh hp
  simp only [Packet.MarshalPacket, hm]
  rw [if_pos]
  simp only [HeaderByteSize, FrameByteSize, FrameAddressByteSize,
    ProtocolHeaderByteSize, maxUint16]
  omega

theorem packet_marshal_success (p : Packet) (order : ByteOrder)
    (hdr : Header) (pl : Payload) (plBytes hb : List Nat)
    (hh : p.header = some hdr) (hp : p.payload = some pl)
    (hm : Payload.MarshalPacket order pl = .ok plBytes)
    (hfit : 36 + plBytes.length ≤ 65535)
    (hhm : Header.MarshalPacket order
      { hdr with
        frame := hdr.frame.map (fun fr => { fr with size := 36 + plBytes.length }) } =
      .ok hb)
    (hbl : hb.length = 36) :
    Packet.MarshalPacket p order =
      ({ p with
         header := some
          { hdr with
            frame := hdr.frame.map (fun fr => { fr with size := 36 + plBytes.length }) } },
        .ok (hb ++ plBytes)) := by
  obtain ⟨h0, pl0⟩ := p
  simp only at hh hp
  subst hh hp
  have h36 : HeaderByteSize = 36 := rfl
  simp only [Packet.MarshalPacket, hm, h36]
  rw [if_neg (by simp only [maxUint16]; omega)]
  simp only [hhm]
  rw [setSeg_assembly2 hb plBytes hbl]

theorem frame_marshal_head (order : ByteOrder) (f : Frame) (bs : List Nat)
    (hm : Frame.MarshalPacket order f = .ok bs) :
    ∃ tail : List Nat, bs = putUint order 2 f.size ++ tail := by
  unfold Frame.MarshalPacket at hm
  split at hm
  · cases hm
  · split at hm
    · cases hm
    · injection hm with h
      exact ⟨_, by rw [← h, List.append_assoc]⟩

set_option maxRecDepth 16384 in
/-- C3 counterexample: the claim states that for every packet with non-nil
header and payload whose payload encodes to `n` bytes with
`36 + n ≤ 65535`, `Packet.MarshalPacket` returns exactly `36 + n` bytes.
Here the echo payload encodes successfully to 64 bytes and
`36 + 64 ≤ 65535`, yet the marshal returns the origin-overflow error (the
header fails to encode because `Origin = 4`), not a 100-byte sequence. -/
theorem claim_C3_counterexample :
    Payload.MarshalPacket .LE (.deviceEcho ⟨List.replicate 64 7⟩) =
      .ok (List.replicate 64 7) ∧
    (List.replicate 64 7).length = 64 ∧
    36 + 64 ≤ 65535 ∧
    (Packet.MarshalPacket
      ⟨some ⟨some ⟨0, 4, false, false, 1024, 0⟩,
        some ⟨[0, 0, 0, 0, 0, 0], [0, 0, 0, 0, 0, 0], 0, false, false, 0⟩,
        some ⟨0, 58, 0⟩⟩,
        some (.deviceEcho ⟨List.replicate 64 7⟩)⟩ .LE).snd =
      .error .originOverflow := by
  refine ⟨by rfl, by rfl, by norm_num, by rfl⟩

/-- C3 (amended): for every packet with non-nil header and payload whose
payload encodes successfully to `n` bytes, if `36 + n > 65535` then
`Packet.MarshalPacket` fails with the size-overflow error and emits no
bytes; otherwise, *provided the header itself encodes* (its fields are in
range: `origin ≤ 3`, `protocol ≤ 4095`, `reserved ≤ 63` — the amendment
forced by the counterexample), it returns exactly `36 + n` bytes: the 36
header bytes followed by the payload bytes, with the first two bytes read
as a u16 in the chosen order equal to `36 + n`. -/
theorem claim_C3_amended (p : Packet) (hdr : Header) (fr : Frame)
    (fa : FrameAddress) (ph : ProtocolHeader) (pl : Payload)
    (plBytes : List Nat) (order : ByteOrder)
    (hh : p.header = some hdr) (hf : hdr.frame = some fr)
    (hfa : hdr.frameAddress = some fa) (hph : hdr.protocolHeader = some ph)
    (hpl : p.payload = some pl)
    (hm : Payload.MarshalPacket order pl = .ok plBytes) :
    (36 + plBytes.length > 65535 →
      (Packet.MarshalPacket p order).snd = .error .sizeOverflow) ∧
    (36 + plBytes.length ≤ 65535 → fr.origin ≤ 3 → fr.protocol ≤ 4095 →
      fa.reserved ≤ 63 →
      ∃ hb : List Nat,
        Header.MarshalPacket order
          { hdr with frame := some { fr with size := 36 + plBytes.length } } =
          .ok hb ∧
        hb.length = 36 ∧
        (Packet.MarshalPacket p order).snd = .ok (hb ++ plBytes) ∧
        (hb ++ plBytes).length = 36 + plBytes.length ∧
        readUint order 2 (hb ++ plBytes) =
          .ok (36 + plBytes.length, (hb ++ plBytes).drop 2)) := by
  constructor
  · intro hbig
    rw [packet_marshal_overflow p order hdr pl plBytes hh hpl hm hbig]
  · intro hfit ho hp2 hr
    obtain ⟨fb, hm1⟩ : ∃ fb, Frame.MarshalPacket order
        { fr with size := 36 + plBytes.length } = .ok fb :=
      ⟨_, frame_marshal_ok order _ ho hp2⟩
    obtain ⟨fab, hm2⟩ : ∃ fab, FrameAddress.MarshalPacket order fa = .ok fab :=
      ⟨_, frameAddress_marshal_ok order fa hr⟩
    obtain ⟨phb, hm3⟩ : ∃ phb, ProtocolHeader.MarshalPacket order ph =
        .ok phb := ⟨_, rfl⟩
    obtain ⟨tail, hfb⟩ := frame_marshal_head order _ fb hm1
    have l1 := frame_marshal_length order _ fb hm1
    have l2 := frameAddress_marshal_length order fa fab hm2
    have l3 := protocolHeader_marshal_length order ph phb hm3
    have hcat : Header.MarshalPacket order
        { hdr with frame := some { fr with size := 36 + plBytes.length } } =
        .ok (fb ++ fab ++ phb) :=
      header_marshal_concat order _ _ fa ph fb fab phb rfl hfa hph hm1 hm2 hm3
    have hbl : (fb ++ fab ++ phb).length = 36 := by
      simp [l1, l2, l3]
    have hconv : ({ hdr with
        frame := hdr.frame.map
          (fun fr' => { fr' with size := 36 + plBytes.length }) } : Header) =
        { hdr with frame := some { fr with size := 36 + plBytes.length } } := by
      rw [hf]
      rfl
    have hhm : Header.MarshalPacket order
        { hdr with
          frame := hdr.frame.map
            (fun fr' => { fr' with size := 36 + plBytes.length }) } =
        .ok (fb ++ fab ++ phb) := by
      rw [hconv]
      exact hcat
    have hpkt := packet_marshal_success p order hdr pl plBytes
      (fb ++ fab ++ phb) hh hpl hm hfit hhm hbl
    refine ⟨fb ++ fab ++ phb, hcat, hbl, ?_, ?_, ?_⟩
    · rw [hpkt]
    · simp only [List.length_append, l1, l2, l3]
    · have he : (fb ++ fab ++ phb) ++ plBytes =
          putUint order 2 (36 + plBytes.length) ++
            (tail ++ (fab ++ (phb ++ plBytes))) := by
        rw [hfb]
        simp [List.append_assoc]
      rw [he, readUint_putUint, List.drop_left' (putUint_length order 2 _)]
      have hmod : (36 + plBytes.length) % 256 ^ 2 = 36 + plBytes.length := by
        omega
      rw [hmod]

set_option maxRecDepth 16384 in
/-- C3 witness: a packet with an in-range header and a 64-byte echo payload
encodes to exactly 100 bytes (the 36 header bytes followed by the payload),
whose first two bytes read as a u16 equal 100. -/
theorem claim_C3_amended_witness :
    (Packet.MarshalPacket
      ⟨some ⟨some ⟨0, 0, false, true, 1024, 0⟩,
        some ⟨[0, 0, 0, 0, 0, 0], [0, 0, 0, 0, 0, 0], 0, false, false, 0⟩,
        some ⟨0, 58, 0⟩⟩, some (.deviceEcho ⟨List.replicate 64 7⟩)⟩ .LE).snd =
      .ok ([100, 0, 0, 20, 0, 0, 0, 0, 0, 0, 0, 0, 0, 0, 0, 0, 0, 0, 0, 0, 0, 0, 0, 0, 0, 0, 0, 0, 0, 0, 0, 0, 58, 0, 0, 0] ++ List.replicate 64 7) ∧
    (([100, 0, 0, 20, 0, 0, 0, 0, 0, 0, 0, 0, 0, 0, 0, 0, 0, 0, 0, 0, 0, 0, 0, 0, 0, 0, 0, 0, 0, 0, 0, 0, 58, 0, 0, 0] : List Nat) ++ List.replicate 64 7).length = 36 + 64 ∧
    readUint .LE 2 (([100, 0, 0, 20, 0, 0, 0, 0, 0, 0, 0, 0, 0, 0, 0, 0, 0, 0, 0, 0, 0, 0, 0, 0, 0, 0, 0, 0, 0, 0, 0, 0, 58, 0, 0, 0] : List Nat) ++ List.replicate 64 7) =
      .ok (100, (([100, 0, 0, 20, 0, 0, 0, 0, 0, 0, 0, 0, 0, 0, 0, 0, 0, 0, 0, 0, 0, 0, 0, 0, 0, 0, 0, 0, 0, 0, 0, 0, 58, 0, 0, 0] : List Nat) ++ List.replicate 64 7).drop 2) := by
  obtain ⟨hb, e1, e2, e3, e4, e5⟩ :=
    (claim_C3_amended
      ⟨some ⟨some ⟨0, 0, false, true, 1024, 0⟩,
        some ⟨[0, 0, 0, 0, 0, 0], [0, 0, 0, 0, 0, 0], 0, false, false, 0⟩,
        some ⟨0, 58, 0⟩⟩, some (.deviceEcho ⟨List.replicate 64 7⟩)⟩
      ⟨some ⟨0, 0, false, true, 1024, 0⟩,
        some ⟨[0, 0, 0, 0, 0, 0], [0, 0, 0, 0, 0, 0], 0, false, false, 0⟩,
        some ⟨0, 58, 0⟩⟩
      ⟨0, 0, false, true, 1024, 0⟩
      ⟨[0, 0, 0, 0, 0, 0], [0, 0, 0, 0, 0, 0], 0, false, false, 0⟩
      ⟨0, 58, 0⟩ (.deviceEcho ⟨List.replicate 64 7⟩) (List.replicate 64 7)
      .LE rfl rfl rfl rfl rfl (by rfl)).2
      (by norm_num) (by decide) (by decide) (by decide)
  have e1x : Header.MarshalPacket .LE
      ⟨some ⟨36 + (List.replicate 64 7).length, 0, false, true, 1024, 0⟩,
        some ⟨[0, 0, 0, 0, 0, 0], [0, 0, 0, 0, 0, 0], 0, false, false, 0⟩,
        some ⟨0, 58, 0⟩⟩ = .ok ([100, 0, 0, 20, 0, 0, 0, 0, 0, 0, 0, 0, 0, 0, 0, 0, 0, 0, 0, 0, 0, 0, 0, 0, 0, 0, 0, 0, 0, 0, 0, 0, 58, 0, 0, 0] : List Nat) := by rfl
  have ehb : ([100, 0, 0, 20, 0, 0, 0, 0, 0, 0, 0, 0, 0, 0, 0, 0, 0, 0, 0, 0, 0, 0, 0, 0, 0, 0, 0, 0, 0, 0, 0, 0, 58, 0, 0, 0] : List Nat) = hb := Except.ok.inj (e1x.symm.trans e1)
  rw [← ehb] at e3 e4 e5
  refine ⟨e3, by simp, e5⟩

/-- C10: during a successful `Packet.MarshalPacket`, the only field of the
input packet that is modified is `Header.Frame.Size` (set to the computed
total `36 + n` where `n` is the payload length); the payload and every
other header field have the same value after encoding as before. -/
theorem claim_C10_size_only_mutation (p p1 : Packet) (order : ByteOrder)
    (bs : List Nat) (pl : Payload) (plBytes : List Nat)
    (hpl : p.payload = some pl)
    (hm : Payload.MarshalPacket order pl = .ok plBytes)
    (h : Packet.MarshalPacket p order = (p1, .ok bs)) :
    p1.payload = p.payload ∧
    p1.header.map Header.frameAddress = p.header.map Header.frameAddress ∧
    p1.header.map Header.protocolHeader = p.header.map Header.protocolHeader ∧
    (p1.header.bind Header.frame).map Frame.origin =
      (p.header.bind Header.frame).map Frame.origin ∧
    (p1.header.bind Header.frame).map Frame.tagged =
      (p.header.bind Header.frame).map Frame.tagged ∧
    (p1.header.bind Header.frame).map Frame.addressable =
      (p.header.bind Header.frame).map Frame.addressable ∧
    (p1.header.bind Header.frame).map Frame.protocol =
      (p.header.bind Header.frame).map Frame.protocol ∧
    (p1.header.bind Header.frame).map Frame.source =
      (p.header.bind Header.frame).map Frame.source ∧
    (p1.header.bind Header.frame).map Frame.size =
      some (36 + plBytes.length) := by
  obtain ⟨h0, pl0⟩ := p
  simp only at hpl
  subst hpl
  cases h0 with
  | none =>
    simp only [Packet.MarshalPacket] at h
    injection h with h1 h2
    cases h2
  | some hdr =>
    simp only [Packet.MarshalPacket, hm] at h
    split at h
    · injection h with h1 h2
      cases h2
    · split at h
      · injection h with h1 h2
        cases h2
      next hb hhb =>
        injection h with h1 h2
        subst h1
        cases hf0 : hdr.frame with
        | none =>
          rw [header_marshal_nil order _ (by simp [hf0])] at hhb
          cases hhb
        | some fr =>
          rw [hf0] at hhb
          simp [hf0, HeaderByteSize, FrameByteSize, FrameAddressByteSize,
            ProtocolHeaderByteSize]

/-- C10 witness: marshalling a concrete packet with a 2-byte power payload
leaves the payload untouched and sets `Header.Frame.Size` to `38`. -/
theorem claim_C10_size_only_mutation_witness :
    (⟨some ⟨some ⟨38, 1, true, false, 99, 7⟩,
        some ⟨[1, 2, 3, 4, 5, 6], [7, 8, 9, 10, 11, 12], 33, true, false, 200⟩,
        some ⟨1, 2, 3⟩⟩,
      some (.deviceStatePower ⟨513⟩)⟩ : Packet).payload =
      (⟨some ⟨some ⟨5, 1, true, false, 99, 7⟩,
          some ⟨[1, 2, 3, 4, 5, 6], [7, 8, 9, 10, 11, 12], 33, true, false,
            200⟩,
          some ⟨1, 2, 3⟩⟩,
        some (.deviceStatePower ⟨513⟩)⟩ : Packet).payload ∧
    (((⟨some ⟨some ⟨38, 1, true, false, 99, 7⟩,
        some ⟨[1, 2, 3, 4, 5, 6], [7, 8, 9, 10, 11, 12], 33, true, false, 200⟩,
        some ⟨1, 2, 3⟩⟩,
      some (.deviceStatePower ⟨513⟩)⟩ : Packet).header.bind
        Header.frame).map Frame.size) = some 38 :=
  have h := claim_C10_size_only_mutation
    ⟨some ⟨some ⟨5, 1, true, false, 99, 7⟩,
        some ⟨[1, 2, 3, 4, 5, 6], [7, 8, 9, 10, 11, 12], 33, true, false, 200⟩,
        some ⟨1, 2, 3⟩⟩,
      some (.deviceStatePower ⟨513⟩)⟩
    ⟨some ⟨some ⟨38, 1, true, false, 99, 7⟩,
        some ⟨[1, 2, 3, 4, 5, 6], [7, 8, 9, 10, 11, 12], 33, true, false, 200⟩,
        some ⟨1, 2, 3⟩⟩,
      some (.deviceStatePower ⟨513⟩)⟩
    .LE
    ([38, 0, 99, 96, 7, 0, 0, 0] ++
      [0, 0, 131, 2, 130, 1, 129, 0, 7, 8, 9, 10, 11, 12, 134, 200] ++
      [1, 0, 0, 0, 0, 0, 0, 0, 2, 0, 3, 0] ++ [1, 2])
    (.deviceStatePower ⟨513⟩) [1, 2] rfl (by rfl) (by rfl)
  ⟨h.1, h.2.2.2.2.2.2.2.2⟩
